import Mathlib

/-!
Verification of the Project Polaris governance engine's audit-ledger
subsystem: the append-only `EventLog`
(`src/genesis/persistence/event_log.py`) and the fail-closed mutation
protocol of `GenesisService` (`src/genesis/service.py`).

Modelling conventions:
* SHA-256 itself is external library code (`hashlib`); it is modelled as an
  arbitrary function `sha : String → String` applied to the canonical JSON
  serialization, so every theorem holds for the real hash function.
* The JSONL text round trip (`json.dumps` / `json.loads`) is external
  library code; the durable file is modelled as the list of parsed records
  it contains.
* Methods on mutable objects that can raise are modelled as functions
  returning the object's post-call state together with the raised error (if
  any), because in Python the object keeps whatever mutations happened
  before the raise.
-/

namespace Polaris

/-- A scalar JSON value.  Every event payload built by this codebase is a
flat string-keyed mapping of scalars, so `payload : dict[str, Any]` is
modelled as an association list of `JVal`. -/
inductive JVal where
  | vnull
  | vbool (b : Bool)
  | vint (n : Int)
  | vstr (s : String)
deriving DecidableEq, Repr

/-- A flat JSON object, insertion ordered like a Python `dict`. -/
abbrev Payload := List (String × JVal)

/-- Escaping of one character inside a JSON string literal
(`json.dumps` with `ensure_ascii=False`). -/
def jsonEscapeChar (c : Char) : String :=
  if c = '"' then "\\\""
  else if c = '\\' then "\\\\"
  else if c = '\n' then "\\n"
  else if c = '\t' then "\\t"
  else if c = '\r' then "\\r"
  else String.singleton c

/-- JSON escaping of a whole string. -/
def jsonEscape (s : String) : String :=
  String.join (s.data.map jsonEscapeChar)

/-- A JSON string literal. -/
def jstrRender (s : String) : String := "\"" ++ jsonEscape s ++ "\""

/-- Rendering of a scalar JSON value. -/
def JVal.render : JVal → String
  | .vnull => "null"
  | .vbool true => "true"
  | .vbool false => "false"
  | .vint n => toString n
  | .vstr s => jstrRender s

/-- Insert a key/value pair into a key-sorted association list. -/
def insertByKey (p : String × JVal) : List (String × JVal) → List (String × JVal)
  | [] => [p]
  | q :: rest => if p.1 ≤ q.1 then p :: q :: rest else q :: insertByKey p rest

/-- Sort an association list by key (`json.dumps(..., sort_keys=True)`). -/
def sortByKey : List (String × JVal) → List (String × JVal)
  | [] => []
  | p :: rest => insertByKey p (sortByKey rest)

/-- The `json.dumps` of a flat object with sorted keys and the default
`", "` / `": "` separators. -/
def renderPayload (p : Payload) : String :=
  "\x7b" ++
    String.intercalate ", "
      ((sortByKey p).map (fun kv => jstrRender kv.1 ++ ": " ++ JVal.render kv.2)) ++
  "\x7d"

/-- Classification of governance events (`EventKind` in `event_log.py`). -/
inductive EventKind where
  | mission_created
  | mission_transition
  | reviewer_assigned
  | review_submitted
  | evidence_added
  | trust_updated
  | actor_registered
  | actor_status_changed
  | epoch_opened
  | epoch_closed
  | commitment_anchored
  | governance_ballot
  | phase_transition
  | quality_assessed
  | listing_created
  | listing_transition
  | bid_submitted
  | worker_allocated
  | skill_updated
  | skill_endorsed
  | skill_decayed
  | leave_requested
  | leave_adjudicated
  | leave_approved
  | leave_denied
  | leave_returned
  | leave_permanent
  | leave_memorialised
deriving DecidableEq, Repr

/-- The string value of an `EventKind` member. -/
def EventKind.value : EventKind → String
  | .mission_created => "mission_created"
  | .mission_transition => "mission_transition"
  | .reviewer_assigned => "reviewer_assigned"
  | .review_submitted => "review_submitted"
  | .evidence_added => "evidence_added"
  | .trust_updated => "trust_updated"
  | .actor_registered => "actor_registered"
  | .actor_status_changed => "actor_status_changed"
  | .epoch_opened => "epoch_opened"
  | .epoch_closed => "epoch_closed"
  | .commitment_anchored => "commitment_anchored"
  | .governance_ballot => "governance_ballot"
  | .phase_transition => "phase_transition"
  | .quality_assessed => "quality_assessed"
  | .listing_created => "listing_created"
  | .listing_transition => "listing_transition"
  | .bid_submitted => "bid_submitted"
  | .worker_allocated => "worker_allocated"
  | .skill_updated => "skill_updated"
  | .skill_endorsed => "skill_endorsed"
  | .skill_decayed => "skill_decayed"
  | .leave_requested => "leave_requested"
  | .leave_adjudicated => "leave_adjudicated"
  | .leave_approved => "leave_approved"
  | .leave_denied => "leave_denied"
  | .leave_returned => "leave_returned"
  | .leave_permanent => "leave_permanent"
  | .leave_memorialised => "leave_memorialised"

/-- The `EventKind(value)`: parse the enum from its string value
(raises `ValueError`, i.e. `none`, on an unknown value). -/
def EventKind.ofValue (s : String) : Option EventKind :=
  if s = "mission_created" then some .mission_created
  else if s = "mission_transition" then some .mission_transition
  else if s = "reviewer_assigned" then some .reviewer_assigned
  else if s = "review_submitted" then some .review_submitted
  else if s = "evidence_added" then some .evidence_added
  else if s = "trust_updated" then some .trust_updated
  else if s = "actor_registered" then some .actor_registered
  else if s = "actor_status_changed" then some .actor_status_changed
  else if s = "epoch_opened" then some .epoch_opened
  else if s = "epoch_closed" then some .epoch_closed
  else if s = "commitment_anchored" then some .commitment_anchored
  else if s = "governance_ballot" then some .governance_ballot
  else if s = "phase_transition" then some .phase_transition
  else if s = "quality_assessed" then some .quality_assessed
  else if s = "listing_created" then some .listing_created
  else if s = "listing_transition" then some .listing_transition
  else if s = "bid_submitted" then some .bid_submitted
  else if s = "worker_allocated" then some .worker_allocated
  else if s = "skill_updated" then some .skill_updated
  else if s = "skill_endorsed" then some .skill_endorsed
  else if s = "skill_decayed" then some .skill_decayed
  else if s = "leave_requested" then some .leave_requested
  else if s = "leave_adjudicated" then some .leave_adjudicated
  else if s = "leave_approved" then some .leave_approved
  else if s = "leave_denied" then some .leave_denied
  else if s = "leave_returned" then some .leave_returned
  else if s = "leave_permanent" then some .leave_permanent
  else if s = "leave_memorialised" then some .leave_memorialised
  else none

/-- The five logical fields that feed the canonical hash. -/
structure CanonicalFields where
  event_id : String
  event_kind : String
  timestamp_utc : String
  actor_id : String
  payload : Payload
deriving DecidableEq, Repr

/-- The `json.dumps({...}, sort_keys=True, ensure_ascii=False)` of the
five-field dict built in `EventRecord.create` and `_load_from_file`;
the sorted key order is
`actor_id < event_id < event_kind < payload < timestamp_utc`. -/
def canonicalEventJson (c : CanonicalFields) : String :=
  "\x7b" ++ jstrRender "actor_id" ++ ": " ++ jstrRender c.actor_id ++
  ", " ++ jstrRender "event_id" ++ ": " ++ jstrRender c.event_id ++
  ", " ++ jstrRender "event_kind" ++ ": " ++ jstrRender c.event_kind ++
  ", " ++ jstrRender "payload" ++ ": " ++ renderPayload c.payload ++
  ", " ++ jstrRender "timestamp_utc" ++ ": " ++ jstrRender c.timestamp_utc ++
  "\x7d"

/-- The `"sha256:" + hashlib.sha256(canonical).hexdigest()`. -/
def eventHashOf (sha : String → String) (c : CanonicalFields) : String :=
  "sha256:" ++ sha (canonicalEventJson c)

/-- A single immutable event in the governance log. -/
structure EventRecord where
  event_id : String
  event_kind : EventKind
  timestamp_utc : String
  actor_id : String
  payload : Payload
  event_hash : String
deriving DecidableEq, Repr

/-- The `EventRecord.create`: build a record with its computed hash.  The
timestamp is passed as its already-formatted `YYYY-MM-DDTHH:MM:SSZ` string
(`ts.strftime(...)` is external library code). -/
def EventRecord.create (sha : String → String) (event_id : String)
    (event_kind : EventKind) (actor_id : String) (payload : Payload)
    (ts_str : String) : EventRecord :=
  { event_id := event_id
    event_kind := event_kind
    timestamp_utc := ts_str
    actor_id := actor_id
    payload := payload
    event_hash := eventHashOf sha ⟨event_id, event_kind.value, ts_str, actor_id, payload⟩ }

/-- One parsed line of the JSONL file: the six-field dict written by
`_append_to_file` and read back by `_load_from_file`. -/
structure StoredRecord where
  event_id : String
  event_kind : String
  timestamp_utc : String
  actor_id : String
  payload : Payload
  event_hash : String
deriving DecidableEq, Repr

/-- The stored form of an event (`_append_to_file`'s record dict). -/
def storedOf (e : EventRecord) : StoredRecord :=
  ⟨e.event_id, e.event_kind.value, e.timestamp_utc, e.actor_id, e.payload, e.event_hash⟩

/-- The append-only event log: in-memory sequence, seen-id set, and the
optional durable file (`none` = memory-only). -/
structure EventLog where
  events : List EventRecord
  event_ids : Finset String
  storage : Option (List StoredRecord)
deriving DecidableEq

/-- Errors `EventLog.append` can raise: `ValueError` on a duplicate id,
`OSError` from the durable file write. -/
inductive AppendError where
  | duplicateEventId (id : String)
  | ioFailure
deriving DecidableEq, Repr

/-- The exception text (the `OSError` text is environment dependent;
a fixed placeholder stands for it). -/
def AppendError.message : AppendError → String
  | .duplicateEventId id => "Duplicate event ID: " ++ id
  | .ioFailure => "disk write failed"

/-- The `EventLog.append`.  `writeFails` injects an `OSError` in the durable
file write (`_append_to_file`).  Returns the log object's state after the
call plus the raised error, if any: in the source the in-memory mutation
happens before the file write, so on a write failure the mutated object
remains. -/
def EventLog.append (writeFails : Bool) (log : EventLog) (e : EventRecord) :
    EventLog × Option AppendError :=
  if e.event_id ∈ log.event_ids then
    (log, some (.duplicateEventId e.event_id))
  else
    let log' : EventLog :=
      { log with
        events := log.events ++ [e]
        event_ids := insert e.event_id log.event_ids }
    match log.storage with
    | none => (log', none)
    | some file =>
      if writeFails then (log', some .ioFailure)
      else ({ log' with storage := some (file ++ [storedOf e]) }, none)

/-- The `EventLog.events(kind=None)`. -/
def EventLog.eventsOf (log : EventLog) (kind : Option EventKind) : List EventRecord :=
  match kind with
  | none => log.events
  | some k => log.events.filter (fun e => decide (e.event_kind = k))

/-- The `EventLog.events_since(since_utc, kind=None)`: `>=` on Python strings
is lexicographic, matching `≤` on Lean strings with the arguments
swapped. -/
def EventLog.events_since (log : EventLog) (since_utc : String)
    (kind : Option EventKind) : List EventRecord :=
  let result := log.events.filter (fun e => decide (since_utc ≤ e.timestamp_utc))
  match kind with
  | none => result
  | some k => result.filter (fun e => decide (e.event_kind = k))

/-- The `EventLog.event_hashes(kind=None)`. -/
def EventLog.event_hashes (log : EventLog) (kind : Option EventKind) : List String :=
  (log.eventsOf kind).map (fun e => e.event_hash)

/-- The `EventLog.count`. -/
def EventLog.count (log : EventLog) : Nat := log.events.length

/-- The `EventLog.last_event`. -/
def EventLog.last_event (log : EventLog) : Option EventRecord := log.events.getLast?

/-- Fatal errors of `_load_from_file` (all raised as `ValueError`). -/
inductive LoadError where
  | replayDetected (line : Nat) (id : String)
  | integrityViolation (line : Nat) (id : String)
  | unknownKind (line : Nat) (value : String)
deriving DecidableEq, Repr

/-- The hash `_load_from_file` recomputes from a stored line's five
logical fields. -/
def expectedHashOf (sha : String → String) (d : StoredRecord) : String :=
  eventHashOf sha ⟨d.event_id, d.event_kind, d.timestamp_utc, d.actor_id, d.payload⟩

/-- The per-line body of `_load_from_file`: duplicate-id check, then
integrity check, then `EventKind(...)` parsing, then append. -/
def loadRecords (sha : String → String) :
    List StoredRecord → Nat → EventLog → Except LoadError EventLog
  | [], _, log => .ok log
  | d :: rest, line_num, log =>
    if d.event_id ∈ log.event_ids then
      .error (.replayDetected line_num d.event_id)
    else if d.event_hash ≠ expectedHashOf sha d then
      .error (.integrityViolation line_num d.event_id)
    else
      match EventKind.ofValue d.event_kind with
      | none => .error (.unknownKind line_num d.event_kind)
      | some k =>
        loadRecords sha rest (line_num + 1)
          { log with
            events := log.events ++
              [⟨d.event_id, k, d.timestamp_utc, d.actor_id, d.payload, d.event_hash⟩]
            event_ids := insert d.event_id log.event_ids }

/-- The `EventLog.__init__(storage_path)`: `storage` is `none` for a
memory-only log, `some none` for a storage path whose file does not exist
yet, and `some (some file)` for an existing file with the given parsed
contents.  A load failure propagates out of the constructor: no `EventLog`
object is produced. -/
def EventLog.make (sha : String → String)
    (storage : Option (Option (List StoredRecord))) : Except LoadError EventLog :=
  match storage with
  | none => .ok { events := [], event_ids := ∅, storage := none }
  | some none => .ok { events := [], event_ids := ∅, storage := some [] }
  | some (some file) =>
    loadRecords sha file 1 { events := [], event_ids := ∅, storage := some file }

/-- The `d.get(k)` on an insertion-ordered dict. -/
def dictGet {α : Type} : List (String × α) → String → Option α
  | [], _ => none
  | (k', v) :: rest, k => if k' = k then some v else dictGet rest k

/-- The `d[k] = v` on an insertion-ordered dict (in-place position on update). -/
def dictSet {α : Type} : List (String × α) → String → α → List (String × α)
  | [], k, v => [(k, v)]
  | (k', v') :: rest, k, v =>
    if k' = k then (k', v) :: rest else (k', v') :: dictSet rest k v

/-- The `d.pop(k, None)` on an insertion-ordered dict. -/
def dictPop {α : Type} : List (String × α) → String → List (String × α)
  | [], _ => []
  | (k', v') :: rest, k => if k' = k then rest else (k', v') :: dictPop rest k

/-- Modelled from the spec: `genesis/models/trust.py` is not under src/;
actors are "human and machine" per the roster module. -/
inductive ActorKind where
  | human
  | machine
deriving DecidableEq, Repr

/-- Operational status of a roster actor (`ActorStatus` in `roster.py`). -/
inductive ActorStatus where
  | active
  | quarantined
  | decommissioned
  | probation
deriving DecidableEq, Repr

/-- A single actor in the roster (`RosterEntry` in `roster.py`).
`float` trust scores are modelled as rationals. -/
structure RosterEntry where
  actor_id : String
  actor_kind : ActorKind
  trust_score : ℚ
  region : String
  organization : String
  model_family : String
  method_type : String
  status : ActorStatus := .active
deriving DecidableEq, Repr

/-- Modelled from the spec: `genesis/models/trust.py` (`TrustRecord`) is
not under src/.  Fields are those `service.py` reads and writes; numeric
fields are rationals, timestamps are strings. -/
structure TrustRecord where
  actor_id : String
  actor_kind : ActorKind
  score : ℚ
  quality : ℚ := 0
  reliability : ℚ := 0
  volume : ℚ := 0
  effort : ℚ := 0
  quarantined : Bool := false
  recertification_failures : Nat := 0
  last_recertification_utc : Option String := none
  decommissioned : Bool := false
  last_active_utc : Option String := none
deriving DecidableEq, Repr

/-- Modelled from the spec: `genesis/models/trust.py` (`TrustDelta`) is
not under src/.  `service.py` reads `abs_delta` (a float, carried here as
its JSON rendering) and `suspended`. -/
structure TrustDelta where
  abs_delta : JVal
  suspended : Bool
deriving DecidableEq, Repr

/-- Mission lifecycle states (`MissionState` in `models/mission.py`). -/
inductive MissionState where
  | draft
  | submitted
  | assigned
  | in_review
  | review_complete
  | human_gate_pending
  | approved
  | rejected
  | cancelled
deriving DecidableEq, Repr

/-- The string value of a `MissionState` member. -/
def MissionState.value : MissionState → String
  | .draft => "draft"
  | .submitted => "submitted"
  | .assigned => "assigned"
  | .in_review => "in_review"
  | .review_complete => "review_complete"
  | .human_gate_pending => "human_gate_pending"
  | .approved => "approved"
  | .rejected => "rejected"
  | .cancelled => "cancelled"

/-- A mission (`Mission` in `models/mission.py`), restricted to the fields
the modelled operations read or write; the remaining business-logic fields
pass through every modelled operation unchanged. -/
structure Mission where
  mission_id : String
  mission_title : String
  state : MissionState := .draft
  worker_id : Option String := none
deriving DecidableEq, Repr

/-- Modelled from the spec: `genesis/models/market.py` (`ListingState`)
is not under src/; `service.py` names the `OPEN` and `ACCEPTING_BIDS`
members. -/
inductive ListingState where
  | draft
  | open_
  | accepting_bids
  | bidding_closed
  | allocated
  | completed
  | cancelled
deriving DecidableEq, Repr

/-- The string value of a `ListingState` member. -/
def ListingState.value : ListingState → String
  | .draft => "draft"
  | .open_ => "open"
  | .accepting_bids => "accepting_bids"
  | .bidding_closed => "bidding_closed"
  | .allocated => "allocated"
  | .completed => "completed"
  | .cancelled => "cancelled"

/-- Modelled from the spec: `genesis/models/market.py` (`MarketListing`)
is not under src/.  Fields are those `_transition_listing` and
`_record_listing_event` touch. -/
structure MarketListing where
  listing_id : String
  creator_id : String
  state : ListingState := .draft
  opened_utc : Option String := none
deriving DecidableEq, Repr

/-- Modelled from the spec: `genesis/crypto/epoch_service.py` is not under
src/.  The spec's EpochLedger owns, while an epoch is open, a mapping from
event-kind bucket to the ordered list of accumulated hashes; `service.py`
additionally reads a `closed` flag on the current epoch. -/
structure OpenEpoch where
  epoch_id : String
  buckets : List (String × List String)
  closed : Bool := false
deriving DecidableEq, Repr

/-- Modelled from the spec: the EpochLedger state (`current_epoch`,
`previous_hash`; the committed/anchored record lists play no part in the
claims formalised here). -/
structure EpochService where
  current_epoch : Option OpenEpoch
  previous_hash : String
deriving DecidableEq, Repr

/-- Append a hash to a bucket's ordered accumulator (creating the bucket
on first use). -/
def bucketAppend : List (String × List String) → String → String →
    List (String × List String)
  | [], bucket, h => [(bucket, [h])]
  | (b, hs) :: rest, bucket, h =>
    if b = bucket then (b, hs ++ [h]) :: rest
    else (b, hs) :: bucketAppend rest bucket h

/-- Modelled from the spec: `record_event(bucket, hash)` appends the hash
to that bucket's accumulator; it is only reached with an epoch open (the
mutation protocol pre-checks), so the no-epoch case leaves the ledger
untouched. -/
def EpochService.record_event (s : EpochService) (bucket h : String) :
    EpochService :=
  match s.current_epoch with
  | none => s
  | some ep =>
    { s with current_epoch := some { ep with buckets := bucketAppend ep.buckets bucket h } }

/-- Modelled from the spec: mission-bucket insertion. -/
def EpochService.record_mission_event (s : EpochService) (h : String) :
    EpochService :=
  s.record_event "mission" h

/-- Modelled from the spec: trust-bucket insertion. -/
def EpochService.record_trust_delta (s : EpochService) (h : String) :
    EpochService :=
  s.record_event "trust" h

/-- Modelled from the spec: `epoch_event_counts()` — per-bucket hash
counts for the currently open epoch. -/
def EpochService.epoch_event_counts (s : EpochService) : List (String × Nat) :=
  match s.current_epoch with
  | none => []
  | some ep => ep.buckets.map (fun bh => (bh.1, bh.2.length))

/-- Result of a service operation (`ServiceResult` in `service.py`); of
the `data` dict only the `"warning"` entry participates in the claims, so
it is carried as an explicit field. -/
structure ServiceResult where
  success : Bool
  errors : List String := []
  warning : Option String := none
deriving DecidableEq, Repr

/-- A successful result, with `data["warning"]` when present. -/
def ServiceResult.okWith (warning : Option String) : ServiceResult :=
  { success := true, warning := warning }

/-- A failed result. -/
def ServiceResult.fail (errs : List String) : ServiceResult :=
  { success := false, errors := errs }

/-- The state of a `GenesisService` instance: the in-memory domain maps,
the epoch ledger, the optional persistence layer, the event-id counter and
the persistence-health flag. -/
structure GenesisService where
  roster : List (String × RosterEntry)
  trust_records : List (String × TrustRecord)
  missions : List (String × Mission)
  listings : List (String × MarketListing)
  epoch_service : EpochService
  event_log : Option EventLog
  has_state_store : Bool
  event_counter : Nat
  persistence_degraded : Bool
deriving DecidableEq

/-- The ambient effects of one service call: the hash function, injected
I/O failures, and the wall-clock strings `datetime.now` produces. -/
structure Env where
  sha : String → String
  appendWriteFails : Bool
  storeWriteFails : Bool
  now_strftime : String
  now_iso : String

/-- Drop leading whitespace characters from a character list. -/
def stripLeftChars : List Char → List Char
  | [] => []
  | c :: rest =>
    if c = ' ' ∨ c = '\t' ∨ c = '\n' ∨ c = '\r' then stripLeftChars rest
    else c :: rest

/-- Python `str.strip()`: remove leading and trailing whitespace. -/
def pyStrip (s : String) : String :=
  String.mk (List.reverse (stripLeftChars (List.reverse (stripLeftChars s.data))))

/-- The `EVT-%08d` formatting of the event counter. -/
def eventIdString (n : Nat) : String :=
  let s := toString n
  "EVT-" ++ String.mk (List.replicate (8 - s.length) '0') ++ s

/-- The `_next_event_id`: increment the counter and format the id.  The
counter is not rolled back on later failure, matching the source. -/
def GenesisService.next_event_id (s : GenesisService) : GenesisService × String :=
  ({ s with event_counter := s.event_counter + 1 },
   eventIdString (s.event_counter + 1))

/-- The fail-closed error string returned by every `_record_*_event`
pre-check. -/
def noOpenEpochMsg : String :=
  "Audit-trail failure (no epoch open): No open epoch — call open_epoch() first."

/-- The `mission.worker_id or "system"`: Python `or` treats the empty string
as falsy. -/
def orSystem : Option String → String
  | none => "system"
  | some w => if w = "" then "system" else w

/-- Whether `_persist_state` raises `OSError` in this call
(it writes only when a StateStore is wired). -/
def GenesisService.persistRaises (s : GenesisService) (env : Env) : Bool :=
  s.has_state_store && env.storeWriteFails

/-- The `_safe_persist` (pre-audit): on failure run the rollback callback and
return an error string. -/
def GenesisService.safe_persist (env : Env) (s : GenesisService)
    (rollback : GenesisService → GenesisService) :
    GenesisService × Option String :=
  if s.persistRaises env then
    (rollback s, some "Persistence failure: disk write failed")
  else (s, none)

/-- The `_safe_persist_post_audit`: never rolls back; on failure sets the
sticky `_persistence_degraded` flag and returns a warning string. -/
def GenesisService.safe_persist_post_audit (env : Env) (s : GenesisService) :
    GenesisService × Option String :=
  if s.persistRaises env then
    ({ s with persistence_degraded := true },
     some ("Persistence degraded: disk write failed — " ++
       "state committed in audit trail but StateStore is stale"))
  else (s, none)

/-- The `_record_mission_event`: pre-check the epoch, durably append, then
insert the hash into the epoch ledger.  Returns the post-call state and
the error string, if any. -/
def GenesisService.record_mission_event (env : Env) (s : GenesisService)
    (mission : Mission) (action : String) : GenesisService × Option String :=
  match s.epoch_service.current_epoch with
  | none => (s, some noOpenEpochMsg)
  | some epoch =>
    if epoch.closed then (s, some noOpenEpochMsg)
    else
      let event_data := mission.mission_id ++ ":" ++ action ++ ":" ++ env.now_iso
      let event_hash := "sha256:" ++ env.sha event_data
      let step2 : GenesisService × Option String :=
        match s.event_log with
        | none => (s, none)
        | some log =>
          let (s1, eid) := s.next_event_id
          let event := EventRecord.create env.sha eid .mission_transition
            (orSystem mission.worker_id)
            [("mission_id", .vstr mission.mission_id),
             ("action", .vstr action),
             ("event_hash", .vstr event_hash)]
            env.now_strftime
          let (log', err) := EventLog.append env.appendWriteFails log event
          let s2 := { s1 with event_log := some log' }
          match err with
          | some e => (s2, some ("Event log failure: " ++ e.message))
          | none => (s2, none)
      match step2 with
      | (s2, some msg) => (s2, some msg)
      | (s2, none) =>
        ({ s2 with epoch_service := s2.epoch_service.record_mission_event event_hash },
         none)

/-- Python `f"{v}"` rendering of a payload scalar. -/
def JVal.fstr : JVal → String
  | .vnull => "None"
  | .vbool true => "True"
  | .vbool false => "False"
  | .vint n => toString n
  | .vstr s => s

/-- The `_record_trust_event`: same three-step ordering for trust deltas. -/
def GenesisService.record_trust_event (env : Env) (s : GenesisService)
    (actor_id : String) (delta : TrustDelta) : GenesisService × Option String :=
  match s.epoch_service.current_epoch with
  | none => (s, some noOpenEpochMsg)
  | some epoch =>
    if epoch.closed then (s, some noOpenEpochMsg)
    else
      let event_data := actor_id ++ ":" ++ delta.abs_delta.fstr ++ ":" ++ env.now_iso
      let event_hash := "sha256:" ++ env.sha event_data
      let step2 : GenesisService × Option String :=
        match s.event_log with
        | none => (s, none)
        | some log =>
          let (s1, eid) := s.next_event_id
          let event := EventRecord.create env.sha eid .trust_updated actor_id
            [("delta", delta.abs_delta),
             ("suspended", .vbool delta.suspended),
             ("event_hash", .vstr event_hash)]
            env.now_strftime
          let (log', err) := EventLog.append env.appendWriteFails log event
          let s2 := { s1 with event_log := some log' }
          match err with
          | some e => (s2, some ("Event log failure: " ++ e.message))
          | none => (s2, none)
      match step2 with
      | (s2, some msg) => (s2, some msg)
      | (s2, none) =>
        ({ s2 with epoch_service := s2.epoch_service.record_trust_delta event_hash },
         none)

/-- The `_record_listing_event` (note: the source inserts listing hashes into
the mission bucket via `record_mission_event`). -/
def GenesisService.record_listing_event (env : Env) (s : GenesisService)
    (listing : MarketListing) (action : String) : GenesisService × Option String :=
  match s.epoch_service.current_epoch with
  | none => (s, some noOpenEpochMsg)
  | some epoch =>
    if epoch.closed then (s, some noOpenEpochMsg)
    else
      let event_data := listing.listing_id ++ ":" ++ action ++ ":" ++ env.now_iso
      let event_hash := "sha256:" ++ env.sha event_data
      let step2 : GenesisService × Option String :=
        match s.event_log with
        | none => (s, none)
        | some log =>
          let (s1, eid) := s.next_event_id
          let event := EventRecord.create env.sha eid
            (if action = "created" then .listing_created else .listing_transition)
            listing.creator_id
            [("listing_id", .vstr listing.listing_id),
             ("action", .vstr action),
             ("event_hash", .vstr event_hash)]
            env.now_strftime
          let (log', err) := EventLog.append env.appendWriteFails log event
          let s2 := { s1 with event_log := some log' }
          match err with
          | some e => (s2, some ("Event log failure: " ++ e.message))
          | none => (s2, none)
      match step2 with
      | (s2, some msg) => (s2, some msg)
      | (s2, none) =>
        ({ s2 with epoch_service := s2.epoch_service.record_mission_event event_hash },
         none)

/-- The `register_actor`: roster registration plus trust-record creation.
Performs no epoch pre-check and records no audit event; persistence goes
through the pre-audit `_safe_persist` with a rollback callback. -/
def GenesisService.register_actor (env : Env) (s : GenesisService)
    (actor_id : String) (actor_kind : ActorKind)
    (region organization model_family method_type : String)
    (initial_trust : ℚ) : GenesisService × ServiceResult :=
  let canonical := pyStrip actor_id
  if canonical = "" then
    (s, .fail ["Cannot register actor with blank ID"])
  else if ¬ (0 ≤ initial_trust ∧ initial_trust ≤ 1) then
    (s, .fail ["Trust score must be in [0, 1]"])
  else
    let entry : RosterEntry :=
      { actor_id := canonical
        actor_kind := actor_kind
        trust_score := initial_trust
        region := region
        organization := organization
        model_family := model_family
        method_type := method_type }
    let s1 := { s with roster := dictSet s.roster canonical entry }
    let freshTrust : TrustRecord :=
      { actor_id := canonical, actor_kind := actor_kind, score := initial_trust }
    let s2 :=
      { s1 with trust_records := dictSet s1.trust_records canonical freshTrust }
    let rollback := fun (t : GenesisService) =>
      { t with roster := dictPop t.roster canonical
               trust_records := dictPop t.trust_records canonical }
    match s2.safe_persist env rollback with
    | (s3, some err) => (s3, .fail [err])
    | (s3, none) => (s3, .okWith none)

/-- The `_transition_mission`: validate via the mission state machine
(`genesis/engine/state_machine.py` is not under src/, so the validator is
an arbitrary parameter `smErrors`), apply the state, record the audit
event, roll back on failure. -/
def GenesisService.transition_mission (env : Env)
    (smErrors : Mission → MissionState → List String)
    (s : GenesisService) (mission_id : String) (target : MissionState) :
    GenesisService × ServiceResult :=
  match dictGet s.missions mission_id with
  | none => (s, .fail ["Mission not found: " ++ mission_id])
  | some mission =>
    match smErrors mission target with
    | e :: es => (s, .fail (e :: es))
    | [] =>
      let previous_state := mission.state
      let mission' := { mission with state := target }
      let s1 := { s with missions := dictSet s.missions mission_id mission' }
      match s1.record_mission_event env mission' ("transition:" ++ target.value) with
      | (s2, some err) =>
        let restored := { mission' with state := previous_state }
        ({ s2 with missions := dictSet s2.missions mission_id restored }, .fail [err])
      | (s2, none) =>
        let (s3, warning) := s2.safe_persist_post_audit env
        (s3, .okWith warning)

/-- The `_transition_listing`: validate via the listing state machine
(`genesis/market/listing_state_machine.py` is not under src/, so the
validator is an arbitrary parameter `lsmErrors`; on success
`apply_transition` sets the target state), record the audit event, roll
back state and `opened_utc` on failure. -/
def GenesisService.transition_listing (env : Env)
    (lsmErrors : MarketListing → ListingState → List String)
    (s : GenesisService) (listing_id : String) (target : ListingState) :
    GenesisService × ServiceResult :=
  match dictGet s.listings listing_id with
  | none => (s, .fail ["Listing not found: " ++ listing_id])
  | some listing =>
    let prior_state := listing.state
    let prior_opened := listing.opened_utc
    match lsmErrors listing target with
    | e :: es => (s, .fail (e :: es))
    | [] =>
      let listing1 := { listing with state := target }
      let listing2 :=
        if target = ListingState.open_ then
          { listing1 with opened_utc := some env.now_iso }
        else listing1
      let s1 := { s with listings := dictSet s.listings listing_id listing2 }
      match s1.record_listing_event env listing2 ("transition:" ++ target.value) with
      | (s2, some err) =>
        let restored := { listing2 with state := prior_state, opened_utc := prior_opened }
        ({ s2 with listings := dictSet s2.listings listing_id restored }, .fail [err])
      | (s2, none) =>
        let (s3, warning) := s2.safe_persist_post_audit env
        (s3, .okWith warning)

/-- The `update_trust`: the trust engine (`genesis/trust/engine.py`, not under
src/) is abstracted as `applyUpdate` / `checkRecert` with the
decommission threshold `recertFailMax`; `is_actor_on_leave` is abstracted
as `onLeave`.  Machine recertification failures increment the counter and
may quarantine/decommission; on audit failure the trust record, roster
score and roster status are all rolled back. -/
def GenesisService.update_trust (env : Env)
    (applyUpdate : TrustRecord → TrustRecord × TrustDelta)
    (checkRecert : TrustRecord → List String)
    (recertFailMax : Nat)
    (onLeave : String → Bool)
    (s : GenesisService) (actor_id : String) :
    GenesisService × ServiceResult :=
  let aid := pyStrip actor_id
  match dictGet s.trust_records aid with
  | none => (s, .fail ["No trust record for actor: " ++ actor_id])
  | some record =>
    if onLeave aid then
      (s, .fail ["Actor " ++ aid ++
        " is on protected leave; trust is frozen (no gain, no loss)"])
    else
      let applied := applyUpdate record
      let nr0 := applied.1
      let delta := applied.2
      let roster_entry := dictGet s.roster aid
      let recert_issues :=
        if nr0.actor_kind = ActorKind.machine then checkRecert nr0 else []
      let stepped :=
        match recert_issues with
        | [] => (nr0, false)
        | _ :: _ =>
          let nr1 := { nr0 with recertification_failures := nr0.recertification_failures + 1 }
          if recertFailMax ≤ nr1.recertification_failures then
            ({ nr1 with score := 0, quarantined := true, decommissioned := true }, true)
          else (nr1, false)
      let new_record := stepped.1
      let s0 :=
        if stepped.2 then
          match roster_entry with
          | some e =>
            let e' := { e with status := ActorStatus.decommissioned }
            { s with roster := dictSet s.roster aid e' }
          | none => s
        else s
      let s1 := { s0 with trust_records := dictSet s0.trust_records aid new_record }
      let s2 :=
        match dictGet s1.roster aid with
        | some e =>
          { s1 with roster := dictSet s1.roster aid { e with trust_score := new_record.score } }
        | none => s1
      match s2.record_trust_event env actor_id delta with
      | (s3, some err) =>
        let s4 := { s3 with trust_records := dictSet s3.trust_records aid record }
        let s5 :=
          match roster_entry with
          | none => s4
          | some e0 =>
            match dictGet s4.roster aid with
            | none => s4
            | some e =>
              let e' := { e with trust_score := record.score, status := e0.status }
              { s4 with roster := dictSet s4.roster aid e' }
        (s5, .fail [err])
      | (s3, none) =>
        let (s4, warning) := s3.safe_persist_post_audit env
        (s4, .okWith warning)

/-- The slice of `status()` the claims read. -/
structure StatusReport where
  actors_total : Nat
  missions_total : Nat
  epochs_current_open : Bool
  persistence_degraded : Bool
deriving DecidableEq, Repr

/-- The `status()`: system-wide summary (restricted to the reported fields the
claims mention). -/
def GenesisService.status (s : GenesisService) : StatusReport :=
  { actors_total := s.roster.length
    missions_total := s.missions.length
    epochs_current_open :=
      match s.epoch_service.current_epoch with
      | none => false
      | some ep => !ep.closed
    persistence_degraded := s.persistence_degraded }

/-- A record whose stored hash matches the hash recomputed from its own
five logical fields (every record built by `EventRecord.create` is). -/
def EventRecord.WellFormed (sha : String → String) (e : EventRecord) : Prop :=
  e.event_hash =
    eventHashOf sha ⟨e.event_id, e.event_kind.value, e.timestamp_utc, e.actor_id, e.payload⟩

/-- The concrete record used to evaluate the failed-write behaviour of
`append`. -/
def c1Record : EventRecord :=
  EventRecord.create (fun s => s) "E-1" .mission_created "alice" []
    "2026-02-14T12:00:00Z"

/-- A freshly constructed file-backed log (empty file). -/
def emptyFileLog : EventLog := { events := [], event_ids := ∅, storage := some [] }

/-- The `EventLog` representation invariant: stored event ids are pairwise
distinct, the seen-id set holds exactly the ids of the stored records, and
`count` is the number of stored records. -/
def EventLog.Inv (log : EventLog) : Prop :=
  (log.events.map EventRecord.event_id).Nodup ∧
  (∀ id, id ∈ log.event_ids ↔ id ∈ log.events.map EventRecord.event_id) ∧
  log.count = log.events.length

/-- The `EventLog` states reachable through the public interface:
construction (with or without an existing file) and any sequence of
`append` calls, including calls that raised. -/
inductive EventLog.Reachable (sha : String → String) : EventLog → Prop where
  | made (storage : Option (Option (List StoredRecord))) (log : EventLog) :
      EventLog.make sha storage = .ok log → EventLog.Reachable sha log
  | appended (log : EventLog) (e : EventRecord) (wf : Bool) :
      EventLog.Reachable sha log → EventLog.Reachable sha (EventLog.append wf log e).1

/-- Repeated `append` over a list of records
(`for r in records: log.append(r)`). -/
def appendAll (wf : Bool) (log : EventLog) (records : List EventRecord) : EventLog :=
  records.foldl (fun l e => (EventLog.append wf l e).1) log

/-- The service-level fail-closed pre-condition: no epoch is open
(`current_epoch is None or current_epoch.closed`). -/
def EpochService.noneOpen (es : EpochService) : Prop :=
  ∀ ep, es.current_epoch = some ep → ep.closed = true

/-- A benign environment: working disk, timestamps fixed. -/
def c2Env : Env :=
  { sha := fun s => s, appendWriteFails := false, storeWriteFails := false,
    now_strftime := "2026-02-14T12:00:00Z", now_iso := "2026-02-14T12:00:00+00:00" }

/-- A concrete mission used in the C2 scenario. -/
def c2Mission : Mission := { mission_id := "M-1", mission_title := "Demo" }

/-- A concrete registered actor. -/
def c2Actor : RosterEntry :=
  { actor_id := "bob", actor_kind := .human, trust_score := 1, region := "NA",
    organization := "Org1", model_family := "human_reviewer",
    method_type := "human_reviewer" }

/-- The concrete actor's trust record (score in sync with the roster). -/
def c2Trust : TrustRecord :=
  { actor_id := "bob", actor_kind := .human, score := 1 }

/-- A concrete listing. -/
def c2Listing : MarketListing := { listing_id := "L-1", creator_id := "bob" }

/-- A concrete service state with NO open epoch, one mission, one listing
and one registered actor with a matching trust record. -/
def c2State : GenesisService :=
  { roster := [("bob", c2Actor)]
    trust_records := [("bob", c2Trust)]
    missions := [("M-1", c2Mission)]
    listings := [("L-1", c2Listing)]
    epoch_service := { current_epoch := none, previous_hash := "sha256:genesis" }
    event_log := none
    has_state_store := false
    event_counter := 0
    persistence_degraded := false }

/-- The environment with an injected durable-write failure. -/
def c3Env : Env :=
  { sha := fun s => s, appendWriteFails := true, storeWriteFails := false,
    now_strftime := "2026-02-14T12:00:00Z", now_iso := "2026-02-14T12:00:00+00:00" }

/-- The open epoch of the C3 scenario. -/
def c3Epoch : OpenEpoch := { epoch_id := "E1", buckets := [] }

/-- A concrete mission for the C3 scenario. -/
def c3Mission : Mission := { mission_id := "M-1", mission_title := "Demo" }

/-- A concrete service state with an OPEN epoch and a file-backed event
log, for exercising the failure injection. -/
def c3State : GenesisService :=
  { roster := []
    trust_records := []
    missions := [("M-1", c3Mission)]
    listings := []
    epoch_service := { current_epoch := some c3Epoch, previous_hash := "sha256:genesis" }
    event_log := some emptyFileLog
    has_state_store := false
    event_counter := 0
    persistence_degraded := false }

/-- The `GenesisService.__init__` (fresh-start branch, without a StateStore to
load from): empty domain maps, event counter seeded from the durable
log's `count`, persistence-health flag cleared (service.py lines
174-199). -/
def GenesisService.init (previous_hash : String) (event_log : Option EventLog)
    (has_state_store : Bool) : GenesisService :=
  { roster := [], trust_records := [], missions := [], listings := []
    epoch_service := { current_epoch := none, previous_hash := previous_hash }
    event_log := event_log
    has_state_store := has_state_store
    event_counter := (match event_log with | none => 0 | some log => log.count)
    persistence_degraded := false }

/-- The warning string `_safe_persist_post_audit` attaches on failure. -/
def degradedMsg : String :=
  "Persistence degraded: disk write failed — " ++
    "state committed in audit trail but StateStore is stale"

/-- The prefixed hash of one mission event's `event_data` string. -/
def missionEventDataHash (env : Env) (m : Mission) (a : String) : String :=
  "sha256:" ++ env.sha (m.mission_id ++ ":" ++ a ++ ":" ++ env.now_iso)

/-- An environment whose StateStore writes fail. -/
def c8EnvFail : Env :=
  { sha := fun s => s, appendWriteFails := false, storeWriteFails := true,
    now_strftime := "2026-02-14T12:00:00Z", now_iso := "2026-02-14T12:00:00+00:00" }

/-- An environment whose StateStore writes succeed. -/
def c8EnvOk : Env :=
  { sha := fun s => s, appendWriteFails := false, storeWriteFails := false,
    now_strftime := "2026-02-14T12:00:01Z", now_iso := "2026-02-14T12:00:01+00:00" }

/-- A freshly constructed store-backed service. -/
def c8State : GenesisService := GenesisService.init "sha256:genesis" none true

/-- The open epoch of the C8 scenario. -/
def c8Epoch : OpenEpoch := { epoch_id := "E1", buckets := [] }

/-- A concrete mission for the C8 scenario. -/
def c8Mission : Mission := { mission_id := "M-1", mission_title := "Demo" }

/-- A store-backed service with an open epoch and one mission. -/
def c8WState : GenesisService :=
  { roster := []
    trust_records := []
    missions := [("M-1", c8Mission)]
    listings := []
    epoch_service := { current_epoch := some c8Epoch, previous_hash := "sha256:genesis" }
    event_log := none
    has_state_store := true
    event_counter := 0
    persistence_degraded := false }

/-! ## Theorems -/

/-- Round trip of the `EventKind` enum through its string value. -/
theorem EventKind.ofValue_value (k : EventKind) : EventKind.ofValue k.value = some k := by
  cases k <;> rfl

/-- The `create` always yields a well-formed record. -/
theorem EventRecord.create_wellFormed (sha : String → String) (event_id : String)
    (event_kind : EventKind) (actor_id : String) (payload : Payload) (ts : String) :
    (EventRecord.create sha event_id event_kind actor_id payload ts).WellFormed sha :=
  rfl

/-- C7: `EventRecord.create` is a pure function of its five logical
fields: its `event_hash` is exactly the prefixed hash of the canonical
JSON of those fields, so any two calls with the same arguments produce a
byte-identical hash (the model is a pure function, matching the source,
which reads no ambient state when a timestamp is supplied and performs no
writes). -/
theorem c7_create_hash_deterministic (sha : String → String) (event_id : String)
    (event_kind : EventKind) (actor_id : String) (payload : Payload)
    (ts : String) (r1 r2 : EventRecord)
    (h1 : r1 = EventRecord.create sha event_id event_kind actor_id payload ts)
    (h2 : r2 = EventRecord.create sha event_id event_kind actor_id payload ts) :
    r1.event_hash = r2.event_hash ∧
    r1.event_hash = eventHashOf sha ⟨event_id, event_kind.value, ts, actor_id, payload⟩ := by
  subst h1; subst h2; exact ⟨rfl, rfl⟩

/-- Witness for C7 at a concrete input. -/
theorem c7_create_hash_deterministic_witness :
    (EventRecord.create (fun s => s) "E-1" .actor_registered "bob"
        [("x", JVal.vint 1)] "2026-02-14T12:00:00Z").event_hash =
      (EventRecord.create (fun s => s) "E-1" .actor_registered "bob"
        [("x", JVal.vint 1)] "2026-02-14T12:00:00Z").event_hash ∧
    (EventRecord.create (fun s => s) "E-1" .actor_registered "bob"
        [("x", JVal.vint 1)] "2026-02-14T12:00:00Z").event_hash =
      eventHashOf (fun s => s)
        ⟨"E-1", EventKind.actor_registered.value, "2026-02-14T12:00:00Z", "bob",
          [("x", JVal.vint 1)]⟩ :=
  c7_create_hash_deterministic (fun s => s) "E-1" .actor_registered "bob"
    [("x", JVal.vint 1)] "2026-02-14T12:00:00Z" _ _ rfl rfl

/-- C9: `events_since(t, kind?)` returns exactly the records whose
`timestamp_utc` is `≥ t` in the lexicographic string order (and whose
kind matches when given), as a sublist of the event sequence (append
order).  The model is a pure function on the log — nothing is mutated. -/
theorem c9_events_since_spec (log : EventLog) (t : String) (k : Option EventKind) :
    (log.events_since t k).Sublist log.events ∧
    ∀ e, e ∈ log.events_since t k ↔
      (e ∈ log.events ∧ t ≤ e.timestamp_utc ∧ ∀ kk, k = some kk → e.event_kind = kk) := by
  constructor
  · cases k with
    | none => exact List.filter_sublist _
    | some kk => exact (List.filter_sublist _).trans (List.filter_sublist _)
  · intro e
    cases k with
    | none => simp [EventLog.events_since, List.mem_filter]
    | some kk =>
      simp only [EventLog.events_since, List.mem_filter, decide_eq_true_eq,
        Option.some.injEq]
      constructor
      · rintro ⟨⟨he, ht⟩, hk⟩
        exact ⟨he, ht, fun kk' hkk' => hkk' ▸ hk⟩
      · rintro ⟨he, ht, hk⟩
        exact ⟨⟨he, ht⟩, hk kk rfl⟩

/-- C1: a failing durable write in `append` does surface the I/O error,
but the log is NOT left as before the call: the in-memory sequence
retains the record, the seen-id set contains its id and `count` grew,
while the file did not — the source appends to memory before the file
write and has no rollback, so the spec's strict all-or-nothing
requirement is violated at this concrete input. -/
theorem c1_append_io_failure_retains_record :
    (EventLog.append true emptyFileLog c1Record).2 = some AppendError.ioFailure ∧
    (EventLog.append true emptyFileLog c1Record).1.events = [c1Record] ∧
    c1Record.event_id ∈ (EventLog.append true emptyFileLog c1Record).1.event_ids ∧
    (EventLog.append true emptyFileLog c1Record).1.count = 1 ∧
    (EventLog.append true emptyFileLog c1Record).1.storage = some [] := by
  refine ⟨rfl, rfl, ?_, rfl, rfl⟩
  simp [EventLog.append, emptyFileLog, c1Record]

/-- The id of an appended record is in the seen-id set afterwards — both
when the append succeeded and when it raised (duplicate or I/O). -/
theorem append_id_mem (wf : Bool) (log : EventLog) (e : EventRecord) :
    e.event_id ∈ (EventLog.append wf log e).1.event_ids := by
  by_cases h : e.event_id ∈ log.event_ids
  · simp [EventLog.append, h]
  · cases hs : log.storage with
    | none => simp [EventLog.append, h, hs]
    | some file =>
      by_cases hw : wf <;> simp [EventLog.append, h, hs, hw]

/-- One `_load_from_file` line that hits the replay check. -/
theorem loadRecords_cons_replay (sha : String → String) (d : StoredRecord)
    (rest : List StoredRecord) (n : Nat) (log : EventLog)
    (hd : d.event_id ∈ log.event_ids) :
    loadRecords sha (d :: rest) n log = .error (.replayDetected n d.event_id) := by
  simp only [loadRecords]
  rw [if_pos hd]

/-- One `_load_from_file` line that hits the integrity check. -/
theorem loadRecords_cons_badhash (sha : String → String) (d : StoredRecord)
    (rest : List StoredRecord) (n : Nat) (log : EventLog)
    (hd : d.event_id ∉ log.event_ids)
    (hh : d.event_hash ≠ expectedHashOf sha d) :
    loadRecords sha (d :: rest) n log = .error (.integrityViolation n d.event_id) := by
  simp only [loadRecords]
  rw [if_neg hd, if_pos hh]

/-- One `_load_from_file` line whose kind value fails to parse. -/
theorem loadRecords_cons_badkind (sha : String → String) (d : StoredRecord)
    (rest : List StoredRecord) (n : Nat) (log : EventLog)
    (hd : d.event_id ∉ log.event_ids)
    (hh : d.event_hash = expectedHashOf sha d)
    (hk : EventKind.ofValue d.event_kind = none) :
    loadRecords sha (d :: rest) n log = .error (.unknownKind n d.event_kind) := by
  simp only [loadRecords]
  rw [if_neg hd, if_neg (not_not_intro hh), hk]

/-- One `_load_from_file` line that passes all three checks. -/
theorem loadRecords_cons_step (sha : String → String) (d : StoredRecord)
    (rest : List StoredRecord) (n : Nat) (log : EventLog) (k : EventKind)
    (hd : d.event_id ∉ log.event_ids)
    (hh : d.event_hash = expectedHashOf sha d)
    (hk : EventKind.ofValue d.event_kind = some k) :
    loadRecords sha (d :: rest) n log =
      loadRecords sha rest (n + 1)
        { log with
          events := log.events ++
            [⟨d.event_id, k, d.timestamp_utc, d.actor_id, d.payload, d.event_hash⟩]
          event_ids := insert d.event_id log.event_ids } := by
  simp only [loadRecords]
  rw [if_neg hd, if_neg (not_not_intro hh), hk]

/-- Recovery fails whenever some line's id is already in the seen set. -/
theorem loadRecords_error_of_seen (sha : String → String) :
    ∀ (file : List StoredRecord) (n : Nat) (log : EventLog),
      (∃ r ∈ file, r.event_id ∈ log.event_ids) →
      ∃ err, loadRecords sha file n log = .error err := by
  intro file
  induction file with
  | nil => intro n log h; simp at h
  | cons d rest ih =>
    intro n log h
    by_cases hd : d.event_id ∈ log.event_ids
    · exact ⟨_, loadRecords_cons_replay sha d rest n log hd⟩
    · by_cases hh : d.event_hash = expectedHashOf sha d
      · cases hk : EventKind.ofValue d.event_kind with
        | none => exact ⟨_, loadRecords_cons_badkind sha d rest n log hd hh hk⟩
        | some k =>
          obtain ⟨r, hr, hrid⟩ := h
          rcases List.mem_cons.mp hr with rfl | hr'
          · exact absurd hrid hd
          · obtain ⟨err, herr⟩ :=
              ih (n + 1)
                { log with
                  events := log.events ++
                    [⟨d.event_id, k, d.timestamp_utc, d.actor_id, d.payload, d.event_hash⟩]
                  event_ids := insert d.event_id log.event_ids }
                ⟨r, hr', Finset.mem_insert_of_mem hrid⟩
            exact ⟨err, by rw [loadRecords_cons_step sha d rest n log k hd hh hk]; exact herr⟩
      · exact ⟨_, loadRecords_cons_badhash sha d rest n log hd hh⟩

/-- Recovery fails whenever the file contains a duplicated event id. -/
theorem loadRecords_error_of_dup (sha : String → String) :
    ∀ (file : List StoredRecord) (n : Nat) (log : EventLog),
      ¬ (file.map StoredRecord.event_id).Nodup →
      ∃ err, loadRecords sha file n log = .error err := by
  intro file
  induction file with
  | nil => intro n log h; simp at h
  | cons d rest ih =>
    intro n log h
    by_cases hd : d.event_id ∈ log.event_ids
    · exact ⟨_, loadRecords_cons_replay sha d rest n log hd⟩
    · by_cases hh : d.event_hash = expectedHashOf sha d
      · cases hk : EventKind.ofValue d.event_kind with
        | none => exact ⟨_, loadRecords_cons_badkind sha d rest n log hd hh hk⟩
        | some k =>
          rw [List.map_cons, List.nodup_cons] at h
          push_neg at h
          have step : ∃ err,
              loadRecords sha rest (n + 1)
                { log with
                  events := log.events ++
                    [⟨d.event_id, k, d.timestamp_utc, d.actor_id, d.payload, d.event_hash⟩]
                  event_ids := insert d.event_id log.event_ids } = .error err := by
            by_cases hdup : d.event_id ∈ rest.map StoredRecord.event_id
            · obtain ⟨r, hr, hrid⟩ := List.mem_map.mp hdup
              refine loadRecords_error_of_seen sha rest (n + 1) _ ⟨r, hr, ?_⟩
              rw [hrid]
              exact Finset.mem_insert_self _ _
            · exact ih (n + 1) _ (h hdup)
          obtain ⟨err, herr⟩ := step
          exact ⟨err, by rw [loadRecords_cons_step sha d rest n log k hd hh hk]; exact herr⟩
      · exact ⟨_, loadRecords_cons_badhash sha d rest n log hd hh⟩

/-- Recovery fails whenever some line's stored hash disagrees with the
hash recomputed from its own logical fields. -/
theorem loadRecords_error_of_badhash (sha : String → String) :
    ∀ (file : List StoredRecord) (n : Nat) (log : EventLog),
      (∃ r ∈ file, r.event_hash ≠ expectedHashOf sha r) →
      ∃ err, loadRecords sha file n log = .error err := by
  intro file
  induction file with
  | nil => intro n log h; simp at h
  | cons d rest ih =>
    intro n log h
    by_cases hd : d.event_id ∈ log.event_ids
    · exact ⟨_, loadRecords_cons_replay sha d rest n log hd⟩
    · by_cases hh : d.event_hash = expectedHashOf sha d
      · cases hk : EventKind.ofValue d.event_kind with
        | none => exact ⟨_, loadRecords_cons_badkind sha d rest n log hd hh hk⟩
        | some k =>
          obtain ⟨r, hr, hrbad⟩ := h
          rcases List.mem_cons.mp hr with rfl | hr'
          · exact absurd hh hrbad
          · obtain ⟨err, herr⟩ :=
              ih (n + 1)
                { log with
                  events := log.events ++
                    [⟨d.event_id, k, d.timestamp_utc, d.actor_id, d.payload, d.event_hash⟩]
                  event_ids := insert d.event_id log.event_ids }
                ⟨r, hr', hrbad⟩
            exact ⟨err, by rw [loadRecords_cons_step sha d rest n log k hd hh hk]; exact herr⟩
      · exact ⟨_, loadRecords_cons_badhash sha d rest n log hd hh⟩

/-- C5: appending a record and then a second record with the same
`event_id` always makes the second call fail with the duplicate-id error
and leaves the log (in particular `count`) exactly as after the first
call — whatever the outcome of the first call was; and a duplicate id in
a stored file makes recovery (`EventLog.make` over an existing file)
abort with an error. -/
theorem c5_duplicate_event_id_rejected :
    (∀ (log : EventLog) (e1 e2 : EventRecord) (wf1 wf2 : Bool),
      e2.event_id = e1.event_id →
      (EventLog.append wf2 (EventLog.append wf1 log e1).1 e2).2 =
        some (AppendError.duplicateEventId e2.event_id) ∧
      (EventLog.append wf2 (EventLog.append wf1 log e1).1 e2).1 =
        (EventLog.append wf1 log e1).1 ∧
      (EventLog.append wf2 (EventLog.append wf1 log e1).1 e2).1.count =
        (EventLog.append wf1 log e1).1.count) ∧
    (∀ (sha : String → String) (file : List StoredRecord),
      ¬ (file.map StoredRecord.event_id).Nodup →
      ∃ err, EventLog.make sha (some (some file)) = .error err) := by
  constructor
  · intro log e1 e2 wf1 wf2 hid
    set log1 := (EventLog.append wf1 log e1).1 with hlog1
    have hmem : e2.event_id ∈ log1.event_ids := by
      rw [hid, hlog1]; exact append_id_mem wf1 log e1
    refine ⟨?_, ?_, ?_⟩ <;> simp [EventLog.append, hmem]
  · intro sha file h
    exact loadRecords_error_of_dup sha file 1 _ h

/-- Witness for C5 at concrete inputs. -/
theorem c5_duplicate_event_id_rejected_witness :
    ("E-1" = "E-1" ∧
      ¬ (([⟨"E-1", "mission_created", "t", "a", [], "h"⟩,
           ⟨"E-1", "mission_created", "t", "a", [], "h"⟩] :
            List StoredRecord).map StoredRecord.event_id).Nodup) ∧
    ((EventLog.append false
        (EventLog.append false emptyFileLog
          (EventRecord.create (fun s => s) "E-1" .mission_created "a" [] "t")).1
        (EventRecord.create (fun s => s) "E-1" .trust_updated "b" [] "t")).2 =
      some (AppendError.duplicateEventId "E-1") ∧
     ∃ err, EventLog.make (fun s => s)
        (some (some [⟨"E-1", "mission_created", "t", "a", [], "h"⟩,
                     ⟨"E-1", "mission_created", "t", "a", [], "h"⟩])) = .error err) := by
  refine ⟨⟨rfl, by decide⟩, ?_, ?_⟩
  · exact (c5_duplicate_event_id_rejected.1 emptyFileLog
      (EventRecord.create (fun s => s) "E-1" .mission_created "a" [] "t")
      (EventRecord.create (fun s => s) "E-1" .trust_updated "b" [] "t")
      false false rfl).1
  · exact c5_duplicate_event_id_rejected.2 (fun s => s) _ (by decide)

/-- C4: if any stored record's logical fields and stored hash disagree —
the recomputed canonical hash of `(event_id, event_kind, timestamp_utc,
actor_id, payload)` differs from the stored `event_hash`, as any
hash-breaking alteration of the payload or another logical field
produces — then constructing an `EventLog` from that file fails with an
error and no log is brought online (the whole load aborts). -/
theorem c4_tampered_record_aborts_recovery (sha : String → String)
    (file : List StoredRecord) (r : StoredRecord) (hr : r ∈ file)
    (hbad : r.event_hash ≠ expectedHashOf sha r) :
    ∃ err, EventLog.make sha (some (some file)) = .error err :=
  loadRecords_error_of_badhash sha file 1 _ ⟨r, hr, hbad⟩

/-- Witness for C4: a one-record file whose payload no longer matches the
stored hash. -/
theorem c4_tampered_record_aborts_recovery_witness :
    ((⟨"E-1", "mission_created", "t", "a", [("k", JVal.vint 2)], "sha256:GOOD"⟩ :
        StoredRecord) ∈
      [(⟨"E-1", "mission_created", "t", "a", [("k", JVal.vint 2)], "sha256:GOOD"⟩ :
        StoredRecord)] ∧
     (⟨"E-1", "mission_created", "t", "a", [("k", JVal.vint 2)], "sha256:GOOD"⟩ :
        StoredRecord).event_hash ≠
       expectedHashOf (fun _ => "HASH-OF-ORIGINAL-PAYLOAD")
         ⟨"E-1", "mission_created", "t", "a", [("k", JVal.vint 2)], "sha256:GOOD"⟩) ∧
    ∃ err, EventLog.make (fun _ => "HASH-OF-ORIGINAL-PAYLOAD")
      (some (some [⟨"E-1", "mission_created", "t", "a", [("k", JVal.vint 2)],
        "sha256:GOOD"⟩])) = .error err := by
  refine ⟨⟨List.mem_singleton_self _, by decide⟩, ?_⟩
  exact c4_tampered_record_aborts_recovery (fun _ => "HASH-OF-ORIGINAL-PAYLOAD") _ _
    (List.mem_singleton_self _) (by decide)

/-- Extending a log with one fresh-id record preserves the invariant
(whatever happens to the file). -/
theorem inv_extend (log : EventLog) (e : EventRecord)
    (st : Option (List StoredRecord)) (h : log.Inv)
    (hd : e.event_id ∉ log.event_ids) :
    EventLog.Inv
      { events := log.events ++ [e]
        event_ids := insert e.event_id log.event_ids
        storage := st } := by
  obtain ⟨hnd, hiff, _⟩ := h
  have hdm : e.event_id ∉ log.events.map EventRecord.event_id :=
    fun hm => hd ((hiff _).mpr hm)
  refine ⟨?_, ?_, rfl⟩
  · have hdm' : ∀ x ∈ log.events, ¬ x.event_id = e.event_id := by
      intro x hx heq
      exact hdm (heq ▸ List.mem_map_of_mem EventRecord.event_id hx)
    simpa [List.nodup_append] using ⟨hnd, hdm'⟩
  · intro id
    simp only [EventLog.Inv, Finset.mem_insert, List.map_append, List.mem_append,
      List.map_cons, List.map_nil, List.mem_singleton]
    rw [hiff id]
    tauto

/-- The `append` preserves the invariant in every outcome. -/
theorem append_inv (wf : Bool) (log : EventLog) (e : EventRecord)
    (h : log.Inv) : (EventLog.append wf log e).1.Inv := by
  by_cases hd : e.event_id ∈ log.event_ids
  · simpa [EventLog.append, hd] using h
  · cases hs : log.storage with
    | none =>
      have := inv_extend log e log.storage h hd
      simpa [EventLog.append, hd, hs] using this
    | some file =>
      by_cases hw : wf
      · have := inv_extend log e log.storage h hd
        simpa [EventLog.append, hd, hs, hw] using this
      · have := inv_extend log e (some (file ++ [storedOf e])) h hd
        simpa [EventLog.append, hd, hs, hw] using this

/-- Recovery preserves the invariant. -/
theorem loadRecords_inv (sha : String → String) :
    ∀ (file : List StoredRecord) (n : Nat) (log log' : EventLog),
      log.Inv → loadRecords sha file n log = .ok log' → log'.Inv := by
  intro file
  induction file with
  | nil =>
    intro n log log' hinv h
    simp only [loadRecords] at h
    cases h
    exact hinv
  | cons d rest ih =>
    intro n log log' hinv h
    by_cases hd : d.event_id ∈ log.event_ids
    · rw [loadRecords_cons_replay sha d rest n log hd] at h; cases h
    · by_cases hh : d.event_hash = expectedHashOf sha d
      · cases hk : EventKind.ofValue d.event_kind with
        | none => rw [loadRecords_cons_badkind sha d rest n log hd hh hk] at h; cases h
        | some k =>
          rw [loadRecords_cons_step sha d rest n log k hd hh hk] at h
          exact ih (n + 1) _ log'
            (inv_extend log
              ⟨d.event_id, k, d.timestamp_utc, d.actor_id, d.payload, d.event_hash⟩
              log.storage hinv hd) h
      · rw [loadRecords_cons_badhash sha d rest n log hd hh] at h; cases h

/-- C10: every reachable `EventLog` state satisfies the representation
invariant: pairwise-distinct event ids, seen-id set equal to the set of
stored ids, and `count` equal to the number of stored records. -/
theorem c10_reachable_log_invariant (sha : String → String) (log : EventLog)
    (h : EventLog.Reachable sha log) : log.Inv := by
  have hempty : ∀ st : Option (List StoredRecord),
      EventLog.Inv { events := [], event_ids := ∅, storage := st } := by
    intro st
    exact ⟨List.nodup_nil, by intro id; simp, rfl⟩
  induction h with
  | made storage log0 hmk =>
    cases storage with
    | none =>
      simp only [EventLog.make] at hmk
      cases hmk
      exact hempty none
    | some f =>
      cases f with
      | none =>
        simp only [EventLog.make] at hmk
        cases hmk
        exact hempty (some [])
      | some file =>
        exact loadRecords_inv sha file 1 _ log0 (hempty (some file)) hmk
  | appended log0 e wf _ ih => exact append_inv wf log0 e ih

/-- Witness for C10: the invariant of a concrete reachable log. -/
theorem c10_reachable_log_invariant_witness :
    EventLog.Inv { events := [], event_ids := ∅, storage := none } :=
  c10_reachable_log_invariant (fun s => s) _
    (EventLog.Reachable.made none { events := [], event_ids := ∅, storage := none } rfl)

/-- A fresh-id `append` with a working file succeeds and extends both the
memory sequence and the file. -/
theorem append_fresh (log : EventLog) (e : EventRecord) (file : List StoredRecord)
    (hd : e.event_id ∉ log.event_ids) (hs : log.storage = some file) :
    EventLog.append false log e =
      ({ events := log.events ++ [e]
         event_ids := insert e.event_id log.event_ids
         storage := some (file ++ [storedOf e]) }, none) := by
  simp [EventLog.append, hd, hs]

/-- Appending fresh-id records to a file-backed log appends them to the
memory sequence and their stored forms to the file. -/
theorem appendAll_fresh :
    ∀ (records : List EventRecord) (log : EventLog) (file : List StoredRecord),
      (records.map EventRecord.event_id).Nodup →
      (∀ e ∈ records, e.event_id ∉ log.event_ids) →
      log.storage = some file →
      (appendAll false log records).events = log.events ++ records ∧
      (appendAll false log records).storage = some (file ++ records.map storedOf) := by
  intro records
  induction records with
  | nil => intro log file _ _ hs; simp [appendAll, hs]
  | cons e rest ih =>
    intro log file hnd hfresh hs
    rw [List.map_cons, List.nodup_cons] at hnd
    have hd : e.event_id ∉ log.event_ids := hfresh e (List.mem_cons_self e rest)
    have happ : (EventLog.append false log e).1 =
        { events := log.events ++ [e]
          event_ids := insert e.event_id log.event_ids
          storage := some (file ++ [storedOf e]) } := by
      rw [append_fresh log e file hd hs]
    have hfresh' : ∀ e' ∈ rest, e'.event_id ∉ insert e.event_id log.event_ids := by
      intro e' he' hmem
      rcases Finset.mem_insert.mp hmem with heq | hin
      · exact hnd.1 (heq ▸ List.mem_map_of_mem EventRecord.event_id he')
      · exact hfresh e' (List.mem_cons_of_mem e he') hin
    have hfold : appendAll false log (e :: rest) =
        appendAll false (EventLog.append false log e).1 rest := rfl
    obtain ⟨h1, h2⟩ := ih
      { events := log.events ++ [e]
        event_ids := insert e.event_id log.event_ids
        storage := some (file ++ [storedOf e]) }
      (file ++ [storedOf e]) hnd.2 hfresh' rfl
    rw [hfold, happ]
    exact ⟨by simpa using h1, by simpa using h2⟩

/-- Loading the stored forms of well-formed fresh-id records succeeds and
reproduces exactly those records, in order. -/
theorem loadRecords_roundtrip (sha : String → String) :
    ∀ (records : List EventRecord) (n : Nat) (log : EventLog),
      (∀ e ∈ records, e.WellFormed sha) →
      (∀ e ∈ records, e.event_id ∉ log.event_ids) →
      (records.map EventRecord.event_id).Nodup →
      ∃ log', loadRecords sha (records.map storedOf) n log = .ok log' ∧
        log'.events = log.events ++ records := by
  intro records
  induction records with
  | nil => intro n log _ _ _; exact ⟨log, rfl, by simp⟩
  | cons e rest ih =>
    intro n log hwf hfresh hnd
    rw [List.map_cons, List.nodup_cons] at hnd
    have hd : (storedOf e).event_id ∉ log.event_ids :=
      hfresh e (List.mem_cons_self e rest)
    have hh : (storedOf e).event_hash = expectedHashOf sha (storedOf e) :=
      hwf e (List.mem_cons_self e rest)
    have hk : EventKind.ofValue (storedOf e).event_kind = some e.event_kind :=
      EventKind.ofValue_value e.event_kind
    have hfresh' : ∀ e' ∈ rest, e'.event_id ∉ insert e.event_id log.event_ids := by
      intro e' he' hmem
      rcases Finset.mem_insert.mp hmem with heq | hin
      · exact hnd.1 (heq ▸ List.mem_map_of_mem EventRecord.event_id he')
      · exact hfresh e' (List.mem_cons_of_mem e he') hin
    obtain ⟨log', hld, hev⟩ := ih (n + 1)
      { log with
        events := log.events ++ [e]
        event_ids := insert e.event_id log.event_ids }
      (fun e' he' => hwf e' (List.mem_cons_of_mem e he'))
      hfresh' hnd.2
    refine ⟨log', ?_, by simpa using hev⟩
    rw [List.map_cons,
      loadRecords_cons_step sha (storedOf e) (rest.map storedOf) n log e.event_kind
        hd hh hk]
    exact hld

/-- C6: appending N distinct-id (well-formed) records to a freshly
constructed file-backed log stores their serialized forms in order, and
constructing a fresh `EventLog` from that file succeeds and yields an
identical ordered sequence of records (all six fields) and the identical
`count` N.  Well-formedness (stored hash = recomputed hash) holds for
every record built by `EventRecord.create`
(`EventRecord.create_wellFormed`). -/
theorem c6_recovery_round_trip (sha : String → String) (records : List EventRecord)
    (hnd : (records.map EventRecord.event_id).Nodup)
    (hwf : ∀ e ∈ records, e.WellFormed sha) :
    EventLog.make sha (some none) = .ok emptyFileLog ∧
    (appendAll false emptyFileLog records).events = records ∧
    (appendAll false emptyFileLog records).count = records.length ∧
    (appendAll false emptyFileLog records).storage = some (records.map storedOf) ∧
    ∃ log', EventLog.make sha (some (some (records.map storedOf))) = .ok log' ∧
      log'.events = records ∧ log'.count = records.length := by
  have hfresh : ∀ e ∈ records, e.event_id ∉ emptyFileLog.event_ids := by
    intro e _ hmem
    simp [emptyFileLog] at hmem
  obtain ⟨h1, h2⟩ := appendAll_fresh records emptyFileLog [] hnd hfresh rfl
  obtain ⟨log', h3, h4⟩ := loadRecords_roundtrip sha records 1
    { events := [], event_ids := ∅, storage := some (records.map storedOf) }
    hwf (by intro e _ hmem; simp at hmem) hnd
  refine ⟨rfl, by simpa [emptyFileLog] using h1, ?_, by simpa using h2,
    log', h3, by simpa using h4, ?_⟩
  · have : (appendAll false emptyFileLog records).events = records := by
      simpa [emptyFileLog] using h1
    simp [EventLog.count, this]
  · have : log'.events = records := by simpa using h4
    simp [EventLog.count, this]

/-- Witness for C6 at two concrete records. -/
theorem c6_recovery_round_trip_witness :
    ((([EventRecord.create (fun s => s) "E-1" .mission_created "alice" [] "t1",
        EventRecord.create (fun s => s) "E-2" .trust_updated "bob" [] "t2"]).map
          EventRecord.event_id).Nodup ∧
      (∀ e ∈ [EventRecord.create (fun s => s) "E-1" .mission_created "alice" [] "t1",
              EventRecord.create (fun s => s) "E-2" .trust_updated "bob" [] "t2"],
        e.WellFormed (fun s => s))) ∧
    ∃ log', EventLog.make (fun s => s)
        (some (some ([EventRecord.create (fun s => s) "E-1" .mission_created "alice" [] "t1",
                      EventRecord.create (fun s => s) "E-2" .trust_updated "bob" [] "t2"].map
            storedOf))) = .ok log' ∧
      log'.events = [EventRecord.create (fun s => s) "E-1" .mission_created "alice" [] "t1",
                     EventRecord.create (fun s => s) "E-2" .trust_updated "bob" [] "t2"] ∧
      log'.count = ([EventRecord.create (fun s => s) "E-1" .mission_created "alice" [] "t1",
                     EventRecord.create (fun s => s) "E-2" .trust_updated "bob" [] "t2"]).length := by
  have hnd : (([EventRecord.create (fun s => s) "E-1" .mission_created "alice" [] "t1",
        EventRecord.create (fun s => s) "E-2" .trust_updated "bob" [] "t2"]).map
          EventRecord.event_id).Nodup := by decide
  have hwf : ∀ e ∈ [EventRecord.create (fun s => s) "E-1" .mission_created "alice" [] "t1",
              EventRecord.create (fun s => s) "E-2" .trust_updated "bob" [] "t2"],
      e.WellFormed (fun s => s) := by
    intro e he
    rcases List.mem_cons.mp he with rfl | he'
    · exact EventRecord.create_wellFormed _ _ _ _ _ _
    · rcases List.mem_cons.mp he' with rfl | he''
      · exact EventRecord.create_wellFormed _ _ _ _ _ _
      · cases he''
  exact ⟨⟨hnd, hwf⟩, (c6_recovery_round_trip (fun s => s) _ hnd hwf).2.2.2.2⟩

/-- Reading back a just-written key. -/
theorem dictGet_dictSet_self {α : Type} (d : List (String × α)) (k : String) (v : α) :
    dictGet (dictSet d k v) k = some v := by
  induction d with
  | nil => simp [dictGet, dictSet]
  | cons p rest ih =>
    obtain ⟨k', v'⟩ := p
    by_cases h : k' = k
    · simp [dictGet, dictSet, h]
    · simp [dictGet, dictSet, h, ih]

/-- Overwriting a just-written key. -/
theorem dictSet_dictSet_self {α : Type} (d : List (String × α)) (k : String) (v w : α) :
    dictSet (dictSet d k v) k w = dictSet d k w := by
  induction d with
  | nil => simp [dictSet]
  | cons p rest ih =>
    obtain ⟨k', v'⟩ := p
    by_cases h : k' = k
    · simp [dictSet, h]
    · simp [dictSet, h, ih]

/-- Writing back the value already present is a no-op. -/
theorem dictSet_get_self {α : Type} (d : List (String × α)) (k : String) (v : α)
    (h : dictGet d k = some v) : dictSet d k v = d := by
  induction d with
  | nil => simp [dictGet] at h
  | cons p rest ih =>
    obtain ⟨k', v'⟩ := p
    by_cases hk : k' = k
    · simp [dictGet, hk] at h
      simp [dictSet, hk, h]
    · simp [dictGet, hk] at h
      simp [dictSet, hk, ih h]

/-- The `_record_mission_event` with no open epoch fails immediately and
leaves the whole service state untouched. -/
theorem record_mission_event_no_epoch (env : Env) (s : GenesisService)
    (m : Mission) (a : String) (h : s.epoch_service.noneOpen) :
    s.record_mission_event env m a = (s, some noOpenEpochMsg) := by
  unfold GenesisService.record_mission_event
  cases hc : s.epoch_service.current_epoch with
  | none => rfl
  | some ep => simp [h ep hc]

/-- The `_record_trust_event` with no open epoch fails immediately and leaves
the whole service state untouched. -/
theorem record_trust_event_no_epoch (env : Env) (s : GenesisService)
    (aid : String) (delta : TrustDelta) (h : s.epoch_service.noneOpen) :
    s.record_trust_event env aid delta = (s, some noOpenEpochMsg) := by
  unfold GenesisService.record_trust_event
  cases hc : s.epoch_service.current_epoch with
  | none => rfl
  | some ep => simp [h ep hc]

/-- The `_record_listing_event` with no open epoch fails immediately and
leaves the whole service state untouched. -/
theorem record_listing_event_no_epoch (env : Env) (s : GenesisService)
    (l : MarketListing) (a : String) (h : s.epoch_service.noneOpen) :
    s.record_listing_event env l a = (s, some noOpenEpochMsg) := by
  unfold GenesisService.record_listing_event
  cases hc : s.epoch_service.current_epoch with
  | none => rfl
  | some ep => simp [h ep hc]

/-- The `_record_mission_event` never touches the domain maps, the
persistence wiring or the degradation flag. -/
theorem record_mission_event_fields (env : Env) (s : GenesisService)
    (m : Mission) (a : String) :
    (s.record_mission_event env m a).1.missions = s.missions ∧
    (s.record_mission_event env m a).1.roster = s.roster ∧
    (s.record_mission_event env m a).1.trust_records = s.trust_records ∧
    (s.record_mission_event env m a).1.listings = s.listings ∧
    (s.record_mission_event env m a).1.has_state_store = s.has_state_store ∧
    (s.record_mission_event env m a).1.persistence_degraded = s.persistence_degraded := by
  unfold GenesisService.record_mission_event
  cases hc : s.epoch_service.current_epoch with
  | none => exact ⟨rfl, rfl, rfl, rfl, rfl, rfl⟩
  | some ep =>
    by_cases hcl : ep.closed
    · simp [hcl]
    · cases hl : s.event_log with
      | none => simp [hcl, hl]
      | some log =>
        cases happ : EventLog.append env.appendWriteFails log
            (EventRecord.create env.sha (eventIdString (s.event_counter + 1))
              .mission_transition (orSystem m.worker_id)
              [("mission_id", .vstr m.mission_id), ("action", .vstr a),
               ("event_hash", .vstr ("sha256:" ++
                  env.sha (m.mission_id ++ ":" ++ a ++ ":" ++ env.now_iso)))]
              env.now_strftime) with
        | mk log' err =>
          cases err with
          | none => simp [hcl, hl, GenesisService.next_event_id, happ]
          | some e => simp [hcl, hl, GenesisService.next_event_id, happ]

/-- The `_record_trust_event` never touches the domain maps, the persistence
wiring or the degradation flag. -/
theorem record_trust_event_fields (env : Env) (s : GenesisService)
    (aid : String) (delta : TrustDelta) :
    (s.record_trust_event env aid delta).1.missions = s.missions ∧
    (s.record_trust_event env aid delta).1.roster = s.roster ∧
    (s.record_trust_event env aid delta).1.trust_records = s.trust_records ∧
    (s.record_trust_event env aid delta).1.listings = s.listings ∧
    (s.record_trust_event env aid delta).1.has_state_store = s.has_state_store ∧
    (s.record_trust_event env aid delta).1.persistence_degraded = s.persistence_degraded := by
  unfold GenesisService.record_trust_event
  cases hc : s.epoch_service.current_epoch with
  | none => exact ⟨rfl, rfl, rfl, rfl, rfl, rfl⟩
  | some ep =>
    by_cases hcl : ep.closed
    · simp [hcl]
    · cases hl : s.event_log with
      | none => simp [hcl, hl]
      | some log =>
        cases happ : EventLog.append env.appendWriteFails log
            (EventRecord.create env.sha (eventIdString (s.event_counter + 1))
              .trust_updated aid
              [("delta", delta.abs_delta), ("suspended", .vbool delta.suspended),
               ("event_hash", .vstr ("sha256:" ++
                  env.sha (aid ++ ":" ++ delta.abs_delta.fstr ++ ":" ++ env.now_iso)))]
              env.now_strftime) with
        | mk log' err =>
          cases err with
          | none => simp [hcl, hl, GenesisService.next_event_id, happ]
          | some e => simp [hcl, hl, GenesisService.next_event_id, happ]

/-- A durable write failure makes `append` raise whenever the log is
file-backed. -/
theorem append_true_fails (log : EventLog) (e : EventRecord)
    (file : List StoredRecord) (hs : log.storage = some file) :
    (EventLog.append true log e).2 ≠ none := by
  by_cases hd : e.event_id ∈ log.event_ids <;> simp [EventLog.append, hd, hs]

/-- Whenever `_record_mission_event` returns an error, the epoch ledger is
untouched (no phantom hash). -/
theorem record_mission_event_error_epoch (env : Env) (s : GenesisService)
    (m : Mission) (a : String) (msg : String)
    (h : (s.record_mission_event env m a).2 = some msg) :
    (s.record_mission_event env m a).1.epoch_service = s.epoch_service := by
  unfold GenesisService.record_mission_event at *
  cases hc : s.epoch_service.current_epoch with
  | none => rfl
  | some ep =>
    rw [hc] at h
    by_cases hcl : ep.closed
    · simp [hcl]
    · simp only [hcl, Bool.false_eq_true, if_false] at h ⊢
      cases hl : s.event_log with
      | none => rw [hl] at h; simp at h
      | some log =>
        rw [hl] at h
        simp only [GenesisService.next_event_id] at h ⊢
        cases happ : EventLog.append env.appendWriteFails log
            (EventRecord.create env.sha (eventIdString (s.event_counter + 1))
              .mission_transition (orSystem m.worker_id)
              [("mission_id", .vstr m.mission_id), ("action", .vstr a),
               ("event_hash", .vstr ("sha256:" ++
                  env.sha (m.mission_id ++ ":" ++ a ++ ":" ++ env.now_iso)))]
              env.now_strftime) with
        | mk log' err =>
          rw [happ] at h
          cases err with
          | none => simp at h
          | some e => simp [hl, happ]

/-- Whenever `_record_trust_event` returns an error, the epoch ledger is
untouched (no phantom hash). -/
theorem record_trust_event_error_epoch (env : Env) (s : GenesisService)
    (aid : String) (delta : TrustDelta) (msg : String)
    (h : (s.record_trust_event env aid delta).2 = some msg) :
    (s.record_trust_event env aid delta).1.epoch_service = s.epoch_service := by
  unfold GenesisService.record_trust_event at *
  cases hc : s.epoch_service.current_epoch with
  | none => rfl
  | some ep =>
    rw [hc] at h
    by_cases hcl : ep.closed
    · simp [hcl]
    · simp only [hcl, Bool.false_eq_true, if_false] at h ⊢
      cases hl : s.event_log with
      | none => rw [hl] at h; simp at h
      | some log =>
        rw [hl] at h
        simp only [GenesisService.next_event_id] at h ⊢
        cases happ : EventLog.append env.appendWriteFails log
            (EventRecord.create env.sha (eventIdString (s.event_counter + 1))
              .trust_updated aid
              [("delta", delta.abs_delta), ("suspended", .vbool delta.suspended),
               ("event_hash", .vstr ("sha256:" ++
                  env.sha (aid ++ ":" ++ delta.abs_delta.fstr ++ ":" ++ env.now_iso)))]
              env.now_strftime) with
        | mk log' err =>
          rw [happ] at h
          cases err with
          | none => simp at h
          | some e => simp [hl, happ]

/-- With an open epoch, a file-backed log and an injected durable-write
failure, `_record_mission_event` returns an error. -/
theorem record_mission_event_fails_of_append (env : Env) (s : GenesisService)
    (m : Mission) (a : String) (ep : OpenEpoch) (log : EventLog)
    (file : List StoredRecord)
    (hep : s.epoch_service.current_epoch = some ep) (hcl : ep.closed = false)
    (hl : s.event_log = some log) (hs : log.storage = some file)
    (hw : env.appendWriteFails = true) :
    (s.record_mission_event env m a).2 ≠ none := by
  unfold GenesisService.record_mission_event
  rw [hep]
  simp only [hcl, Bool.false_eq_true, if_false]
  rw [hl]
  simp only [GenesisService.next_event_id]
  cases happ : EventLog.append env.appendWriteFails log
      (EventRecord.create env.sha (eventIdString (s.event_counter + 1))
        .mission_transition (orSystem m.worker_id)
        [("mission_id", .vstr m.mission_id), ("action", .vstr a),
         ("event_hash", .vstr ("sha256:" ++
            env.sha (m.mission_id ++ ":" ++ a ++ ":" ++ env.now_iso)))]
        env.now_strftime) with
  | mk log' err =>
    cases err with
    | none =>
      rw [hw] at happ
      exact absurd (congrArg Prod.snd happ) (append_true_fails log _ file hs)
    | some e => simp [happ]

/-- With an open epoch, a file-backed log and an injected durable-write
failure, `_record_trust_event` returns an error. -/
theorem record_trust_event_fails_of_append (env : Env) (s : GenesisService)
    (aid : String) (delta : TrustDelta) (ep : OpenEpoch) (log : EventLog)
    (file : List StoredRecord)
    (hep : s.epoch_service.current_epoch = some ep) (hcl : ep.closed = false)
    (hl : s.event_log = some log) (hs : log.storage = some file)
    (hw : env.appendWriteFails = true) :
    (s.record_trust_event env aid delta).2 ≠ none := by
  unfold GenesisService.record_trust_event
  rw [hep]
  simp only [hcl, Bool.false_eq_true, if_false]
  rw [hl]
  simp only [GenesisService.next_event_id]
  cases happ : EventLog.append env.appendWriteFails log
      (EventRecord.create env.sha (eventIdString (s.event_counter + 1))
        .trust_updated aid
        [("delta", delta.abs_delta), ("suspended", .vbool delta.suspended),
         ("event_hash", .vstr ("sha256:" ++
            env.sha (aid ++ ":" ++ delta.abs_delta.fstr ++ ":" ++ env.now_iso)))]
        env.now_strftime) with
  | mk log' err =>
    cases err with
    | none =>
      rw [hw] at happ
      exact absurd (congrArg Prod.snd happ) (append_true_fails log _ file hs)
    | some e => simp [happ]

/-- The `_transition_mission` with no open epoch fails with the fail-closed
error and restores the whole service state. -/
theorem transition_mission_no_epoch (env : Env)
    (smErrors : Mission → MissionState → List String)
    (s : GenesisService) (mid : String) (target : MissionState) (m : Mission)
    (hne : s.epoch_service.noneOpen)
    (hm : dictGet s.missions mid = some m)
    (hv : smErrors m target = []) :
    s.transition_mission env smErrors mid target = (s, .fail [noOpenEpochMsg]) := by
  unfold GenesisService.transition_mission
  simp only [hm, hv]
  rw [record_mission_event_no_epoch env ({ s with missions := dictSet s.missions mid ({ m with state := target }) }) ({ m with state := target }) ("transition:" ++ target.value) hne]
  simp [dictSet_dictSet_self, dictSet_get_self s.missions mid m hm]

/-- The `_transition_listing` with no open epoch fails with the fail-closed
error and restores the whole service state. -/
theorem transition_listing_no_epoch (env : Env)
    (lsmErrors : MarketListing → ListingState → List String)
    (s : GenesisService) (lid : String) (target : ListingState) (l : MarketListing)
    (hne : s.epoch_service.noneOpen)
    (hl : dictGet s.listings lid = some l)
    (hv : lsmErrors l target = []) :
    s.transition_listing env lsmErrors lid target = (s, .fail [noOpenEpochMsg]) := by
  unfold GenesisService.transition_listing
  simp only [hl, hv]
  by_cases ht : target = ListingState.open_
  · rw [if_pos ht]
    rw [record_listing_event_no_epoch env ({ s with listings := dictSet s.listings lid ({ l with state := target, opened_utc := some env.now_iso }) }) ({ l with state := target, opened_utc := some env.now_iso }) ("transition:" ++ target.value) hne]
    simp [dictSet_dictSet_self, dictSet_get_self s.listings lid l hl]
  · rw [if_neg ht]
    rw [record_listing_event_no_epoch env ({ s with listings := dictSet s.listings lid ({ l with state := target }) }) ({ l with state := target }) ("transition:" ++ target.value) hne]
    simp [dictSet_dictSet_self, dictSet_get_self s.listings lid l hl]

/-- The `update_trust` with no open epoch fails with the fail-closed error and
restores the whole service state (the roster-synchrony hypothesis reflects
that the roster's cached `trust_score` always mirrors the trust record's
score in states the service itself builds). -/
theorem update_trust_no_epoch (env : Env)
    (applyUpdate : TrustRecord → TrustRecord × TrustDelta)
    (checkRecert : TrustRecord → List String) (recertFailMax : Nat)
    (onLeave : String → Bool)
    (s : GenesisService) (actor_id : String) (record : TrustRecord)
    (hne : s.epoch_service.noneOpen)
    (hget : dictGet s.trust_records (pyStrip actor_id) = some record)
    (hleave : onLeave (pyStrip actor_id) = false)
    (hsync : ∀ e0, dictGet s.roster (pyStrip actor_id) = some e0 →
      e0.trust_score = record.score) :
    s.update_trust env applyUpdate checkRecert recertFailMax onLeave actor_id =
      (s, .fail [noOpenEpochMsg]) := by
  unfold GenesisService.update_trust
  simp only [hget, hleave, Bool.false_eq_true, if_false]
  rcases happly : applyUpdate record with ⟨nr0, delta⟩
  cases hre : dictGet s.roster (pyStrip actor_id) with
  | none =>
    by_cases hk : nr0.actor_kind = ActorKind.machine
    · rw [if_pos hk]
      cases hci : checkRecert nr0 with
      | nil =>
        simp [record_trust_event_no_epoch, hne, hre, dictSet_dictSet_self,
          dictGet_dictSet_self, dictSet_get_self _ _ _ hget]
      | cons c cs =>
        by_cases hth : recertFailMax ≤ nr0.recertification_failures + 1
        · rw [if_pos hth]
          simp [record_trust_event_no_epoch, hne, hre, dictSet_dictSet_self,
            dictGet_dictSet_self, dictSet_get_self _ _ _ hget]
        · rw [if_neg hth]
          simp [record_trust_event_no_epoch, hne, hre, dictSet_dictSet_self,
            dictGet_dictSet_self, dictSet_get_self _ _ _ hget]
    · rw [if_neg hk]
      simp [record_trust_event_no_epoch, hne, hre, dictSet_dictSet_self,
        dictGet_dictSet_self, dictSet_get_self _ _ _ hget]
  | some e0 =>
    by_cases hk : nr0.actor_kind = ActorKind.machine
    · rw [if_pos hk]
      cases hci : checkRecert nr0 with
      | nil =>
        simp [record_trust_event_no_epoch, hne, hre, dictSet_dictSet_self,
          dictGet_dictSet_self, dictSet_get_self _ _ _ hget, (hsync e0 hre).symm,
          dictSet_get_self _ _ _ hre]
      | cons c cs =>
        by_cases hth : recertFailMax ≤ nr0.recertification_failures + 1
        · rw [if_pos hth]
          simp [record_trust_event_no_epoch, hne, hre, dictSet_dictSet_self,
            dictGet_dictSet_self, dictSet_get_self _ _ _ hget, (hsync e0 hre).symm,
            dictSet_get_self _ _ _ hre]
        · rw [if_neg hth]
          simp [record_trust_event_no_epoch, hne, hre, dictSet_dictSet_self,
            dictGet_dictSet_self, dictSet_get_self _ _ _ hget, (hsync e0 hre).symm,
            dictSet_get_self _ _ _ hre]
    · rw [if_neg hk]
      simp [record_trust_event_no_epoch, hne, hre, dictSet_dictSet_self,
        dictGet_dictSet_self, dictSet_get_self _ _ _ hget, (hsync e0 hre).symm,
        dictSet_get_self _ _ _ hre]

/-- C2 counterexample: `register_actor` is a state-mutating service
operation, yet called with no open epoch it does NOT fail with a
no-open-epoch error — it succeeds (it performs no epoch pre-check and
records no audit event), refuting the claim as stated at this concrete
input. -/
theorem c2_register_actor_without_epoch_succeeds :
    c2State.epoch_service.current_epoch = none ∧
    (c2State.register_actor c2Env "alice" .human "NA" "Org1" "human_reviewer"
      "human_reviewer" 1).2.success = true ∧
    (c2State.register_actor c2Env "alice" .human "NA" "Org1" "human_reviewer"
      "human_reviewer" 1).2.errors = [] := by
  refine ⟨rfl, ?_, ?_⟩ <;> decide

/-- C2 (amended): for the audited mutating operations — mission
transitions, listing transitions and trust updates — a call with no open
epoch (after their own lookup/validation pre-checks pass) always fails
with the no-open-epoch error and leaves the whole service state,
EventLog and domain maps included, exactly unchanged.  `register_actor`
is excluded: it performs no epoch pre-check (see
`c2_register_actor_without_epoch_succeeds`). -/
theorem c2_no_epoch_fail_closed (env : Env) (s : GenesisService)
    (hne : s.epoch_service.noneOpen) :
    (∀ (smErrors : Mission → MissionState → List String) (mid : String)
        (target : MissionState) (m : Mission),
      dictGet s.missions mid = some m → smErrors m target = [] →
      s.transition_mission env smErrors mid target = (s, .fail [noOpenEpochMsg])) ∧
    (∀ (lsmErrors : MarketListing → ListingState → List String) (lid : String)
        (target : ListingState) (l : MarketListing),
      dictGet s.listings lid = some l → lsmErrors l target = [] →
      s.transition_listing env lsmErrors lid target = (s, .fail [noOpenEpochMsg])) ∧
    (∀ (applyUpdate : TrustRecord → TrustRecord × TrustDelta)
        (checkRecert : TrustRecord → List String) (recertFailMax : Nat)
        (onLeave : String → Bool) (actor_id : String) (record : TrustRecord),
      dictGet s.trust_records (pyStrip actor_id) = some record →
      onLeave (pyStrip actor_id) = false →
      (∀ e0, dictGet s.roster (pyStrip actor_id) = some e0 →
        e0.trust_score = record.score) →
      s.update_trust env applyUpdate checkRecert recertFailMax onLeave actor_id =
        (s, .fail [noOpenEpochMsg])) :=
  ⟨fun smErrors mid target m hm hv =>
      transition_mission_no_epoch env smErrors s mid target m hne hm hv,
   fun lsmErrors lid target l hl hv =>
      transition_listing_no_epoch env lsmErrors s lid target l hne hl hv,
   fun applyUpdate checkRecert recertFailMax onLeave actor_id record hget hleave hsync =>
      update_trust_no_epoch env applyUpdate checkRecert recertFailMax onLeave s
        actor_id record hne hget hleave hsync⟩

/-- Witness for the amended C2 at concrete inputs. -/
theorem c2_no_epoch_fail_closed_witness :
    (c2State.epoch_service.noneOpen ∧
      dictGet c2State.missions "M-1" = some c2Mission ∧
      dictGet c2State.trust_records (pyStrip "bob") =
        some { actor_id := "bob", actor_kind := .human, score := 1 }) ∧
    c2State.transition_mission c2Env (fun _ _ => []) "M-1" .submitted =
      (c2State, .fail [noOpenEpochMsg]) ∧
    c2State.update_trust c2Env (fun r => (r, { abs_delta := .vint 0, suspended := false }))
      (fun _ => []) 3 (fun _ => false) "bob" = (c2State, .fail [noOpenEpochMsg]) := by
  have hne : c2State.epoch_service.noneOpen := fun ep h => nomatch h
  refine ⟨⟨hne, rfl, rfl⟩, ?_, ?_⟩
  · exact (c2_no_epoch_fail_closed c2Env c2State hne).1 (fun _ _ => []) "M-1"
      .submitted c2Mission rfl rfl
  · exact (c2_no_epoch_fail_closed c2Env c2State hne).2.2
      (fun r => (r, { abs_delta := .vint 0, suspended := false }))
      (fun _ => []) 3 (fun _ => false) "bob"
      { actor_id := "bob", actor_kind := .human, score := 1 }
      rfl rfl (fun e0 h => by cases h; rfl)

/-- The state returned by `_record_mission_event` keeps the missions map;
on an error it also keeps the epoch ledger. -/
theorem record_mission_event_state_facts (env : Env) (s' : GenesisService)
    (m : Mission) (a : String) (s3 : GenesisService) (res : Option String)
    (heq : s'.record_mission_event env m a = (s3, res)) :
    s3.missions = s'.missions ∧
    (∀ msg, res = some msg → s3.epoch_service = s'.epoch_service) := by
  have hf := record_mission_event_fields env s' m a
  rw [heq] at hf
  refine ⟨hf.1, ?_⟩
  intro msg hres
  have he := record_mission_event_error_epoch env s' m a msg (by rw [heq, hres])
  rw [heq] at he
  exact he

/-- The state returned by `_record_trust_event` keeps the trust and roster
maps; on an error it also keeps the epoch ledger. -/
theorem record_trust_event_state_facts (env : Env) (s' : GenesisService)
    (aid : String) (delta : TrustDelta) (s3 : GenesisService) (res : Option String)
    (heq : s'.record_trust_event env aid delta = (s3, res)) :
    s3.trust_records = s'.trust_records ∧ s3.roster = s'.roster ∧
    (∀ msg, res = some msg → s3.epoch_service = s'.epoch_service) := by
  have hf := record_trust_event_fields env s' aid delta
  rw [heq] at hf
  refine ⟨hf.2.2.1, hf.2.1, ?_⟩
  intro msg hres
  have he := record_trust_event_error_epoch env s' aid delta msg (by rw [heq, hres])
  rw [heq] at he
  exact he

/-- The `_transition_mission` under an injected durable-write failure: the
operation fails, the missions map is restored and no hash reaches the
epoch ledger. -/
theorem transition_mission_append_fail (env : Env)
    (smErrors : Mission → MissionState → List String)
    (s : GenesisService) (mid : String) (target : MissionState) (m : Mission)
    (ep : OpenEpoch) (log : EventLog) (file : List StoredRecord)
    (hep : s.epoch_service.current_epoch = some ep) (hcl : ep.closed = false)
    (hl : s.event_log = some log) (hs : log.storage = some file)
    (hw : env.appendWriteFails = true)
    (hm : dictGet s.missions mid = some m) (hv : smErrors m target = []) :
    (s.transition_mission env smErrors mid target).2.success = false ∧
    (s.transition_mission env smErrors mid target).1.missions = s.missions ∧
    (s.transition_mission env smErrors mid target).1.epoch_service = s.epoch_service := by
  unfold GenesisService.transition_mission
  simp only [hm, hv]
  split
  · rename_i s3 msg heq
    obtain ⟨hmi, hepf⟩ := record_mission_event_state_facts env _ _ _ s3 _ heq
    refine ⟨rfl, ?_, ?_⟩
    · simp only [hmi]
      simp [dictSet_dictSet_self, dictSet_get_self _ _ _ hm]
    · exact hepf msg rfl
  · rename_i s3 heq
    exact absurd (congrArg Prod.snd heq)
      (record_mission_event_fails_of_append env _ _ _ ep log file hep hcl hl hs hw)

/-- The `update_trust` under an injected durable-write failure: the operation
fails and the trust record, roster entry (score and status) and epoch
ledger are all restored to their pre-operation values. -/
theorem update_trust_append_fail (env : Env)
    (applyUpdate : TrustRecord → TrustRecord × TrustDelta)
    (checkRecert : TrustRecord → List String) (recertFailMax : Nat)
    (onLeave : String → Bool)
    (s : GenesisService) (actor_id : String) (record : TrustRecord)
    (ep : OpenEpoch) (log : EventLog) (file : List StoredRecord)
    (hep : s.epoch_service.current_epoch = some ep) (hcl : ep.closed = false)
    (hl : s.event_log = some log) (hs : log.storage = some file)
    (hw : env.appendWriteFails = true)
    (hget : dictGet s.trust_records (pyStrip actor_id) = some record)
    (hleave : onLeave (pyStrip actor_id) = false)
    (hsync : ∀ e0, dictGet s.roster (pyStrip actor_id) = some e0 →
      e0.trust_score = record.score) :
    (s.update_trust env applyUpdate checkRecert recertFailMax onLeave
      actor_id).2.success = false ∧
    (s.update_trust env applyUpdate checkRecert recertFailMax onLeave
      actor_id).1.trust_records = s.trust_records ∧
    (s.update_trust env applyUpdate checkRecert recertFailMax onLeave
      actor_id).1.roster = s.roster ∧
    (s.update_trust env applyUpdate checkRecert recertFailMax onLeave
      actor_id).1.epoch_service = s.epoch_service := by
  unfold GenesisService.update_trust
  simp only [hget, hleave, Bool.false_eq_true, if_false]
  rcases happly : applyUpdate record with ⟨nr0, delta⟩
  cases hre : dictGet s.roster (pyStrip actor_id) with
  | none =>
    by_cases hk : nr0.actor_kind = ActorKind.machine
    · rw [if_pos hk]
      cases hci : checkRecert nr0 with
      | nil =>
        simp [hre]
        split
        · rename_i s3 msg heq
          obtain ⟨htr, hro, hepf⟩ := record_trust_event_state_facts env _ actor_id _ s3 _ heq
          refine ⟨rfl, ?_, ?_, ?_⟩
          · simp [htr, dictSet_dictSet_self, dictSet_get_self _ _ _ hget]
          · simp [hro, hre]
          · simp [hro, hre, hepf msg rfl]
        · rename_i s3 heq
          exact absurd (congrArg Prod.snd heq)
            (record_trust_event_fails_of_append env _ actor_id _ ep log file hep hcl hl hs hw)
      | cons c cs =>
        by_cases hth : recertFailMax ≤ nr0.recertification_failures + 1
        · rw [if_pos hth]
          simp [hre]
          split
          · rename_i s3 msg heq
            obtain ⟨htr, hro, hepf⟩ := record_trust_event_state_facts env _ actor_id _ s3 _ heq
            refine ⟨rfl, ?_, ?_, ?_⟩
            · simp [htr, dictSet_dictSet_self, dictSet_get_self _ _ _ hget]
            · simp [hro, hre]
            · simp [hro, hre, hepf msg rfl]
          · rename_i s3 heq
            exact absurd (congrArg Prod.snd heq)
              (record_trust_event_fails_of_append env _ actor_id _ ep log file hep hcl hl hs hw)
        · rw [if_neg hth]
          simp [hre]
          split
          · rename_i s3 msg heq
            obtain ⟨htr, hro, hepf⟩ := record_trust_event_state_facts env _ actor_id _ s3 _ heq
            refine ⟨rfl, ?_, ?_, ?_⟩
            · simp [htr, dictSet_dictSet_self, dictSet_get_self _ _ _ hget]
            · simp [hro, hre]
            · simp [hro, hre, hepf msg rfl]
          · rename_i s3 heq
            exact absurd (congrArg Prod.snd heq)
              (record_trust_event_fails_of_append env _ actor_id _ ep log file hep hcl hl hs hw)
    · rw [if_neg hk]
      simp [hre]
      split
      · rename_i s3 msg heq
        obtain ⟨htr, hro, hepf⟩ := record_trust_event_state_facts env _ actor_id _ s3 _ heq
        refine ⟨rfl, ?_, ?_, ?_⟩
        · simp [htr, dictSet_dictSet_self, dictSet_get_self _ _ _ hget]
        · simp [hro, hre]
        · simp [hro, hre, hepf msg rfl]
      · rename_i s3 heq
        exact absurd (congrArg Prod.snd heq)
          (record_trust_event_fails_of_append env _ actor_id _ ep log file hep hcl hl hs hw)
  | some e0 =>
    by_cases hk : nr0.actor_kind = ActorKind.machine
    · rw [if_pos hk]
      cases hci : checkRecert nr0 with
      | nil =>
        simp [hre, dictGet_dictSet_self]
        split
        · rename_i s3 msg heq
          obtain ⟨htr, hro, hepf⟩ := record_trust_event_state_facts env _ actor_id _ s3 _ heq
          refine ⟨rfl, ?_, ?_, ?_⟩ <;>
            simp [htr, hro, hre, dictGet_dictSet_self, dictSet_dictSet_self,
              (hsync e0 hre).symm, dictSet_get_self _ _ _ hget,
              dictSet_get_self _ _ _ hre, hepf msg rfl]
        · rename_i s3 heq
          exact absurd (congrArg Prod.snd heq)
            (record_trust_event_fails_of_append env _ actor_id _ ep log file hep hcl hl hs hw)
      | cons c cs =>
        by_cases hth : recertFailMax ≤ nr0.recertification_failures + 1
        · rw [if_pos hth]
          simp [hre, dictGet_dictSet_self]
          split
          · rename_i s3 msg heq
            obtain ⟨htr, hro, hepf⟩ := record_trust_event_state_facts env _ actor_id _ s3 _ heq
            refine ⟨rfl, ?_, ?_, ?_⟩ <;>
              simp [htr, hro, hre, dictGet_dictSet_self, dictSet_dictSet_self,
                (hsync e0 hre).symm, dictSet_get_self _ _ _ hget,
                dictSet_get_self _ _ _ hre, hepf msg rfl]
          · rename_i s3 heq
            exact absurd (congrArg Prod.snd heq)
              (record_trust_event_fails_of_append env _ actor_id _ ep log file hep hcl hl hs hw)
        · rw [if_neg hth]
          simp [hre, dictGet_dictSet_self]
          split
          · rename_i s3 msg heq
            obtain ⟨htr, hro, hepf⟩ := record_trust_event_state_facts env _ actor_id _ s3 _ heq
            refine ⟨rfl, ?_, ?_, ?_⟩ <;>
              simp [htr, hro, hre, dictGet_dictSet_self, dictSet_dictSet_self,
                (hsync e0 hre).symm, dictSet_get_self _ _ _ hget,
                dictSet_get_self _ _ _ hre, hepf msg rfl]
          · rename_i s3 heq
            exact absurd (congrArg Prod.snd heq)
              (record_trust_event_fails_of_append env _ actor_id _ ep log file hep hcl hl hs hw)
    · rw [if_neg hk]
      simp [hre, dictGet_dictSet_self]
      split
      · rename_i s3 msg heq
        obtain ⟨htr, hro, hepf⟩ := record_trust_event_state_facts env _ actor_id _ s3 _ heq
        refine ⟨rfl, ?_, ?_, ?_⟩ <;>
          simp [htr, hro, hre, dictGet_dictSet_self, dictSet_dictSet_self,
            (hsync e0 hre).symm, dictSet_get_self _ _ _ hget,
            dictSet_get_self _ _ _ hre, hepf msg rfl]
      · rename_i s3 heq
        exact absurd (congrArg Prod.snd heq)
          (record_trust_event_fails_of_append env _ actor_id _ ep log file hep hcl hl hs hw)

/-- C3: no phantom hashes.  Whenever `_record_mission_event` or
`_record_trust_event` returns an error — in particular when the durable
`EventLog.append` raises in step 2 — the epoch ledger is untouched, so
`epoch_event_counts` shows zero new hashes for that mutation; and under an
injected durable-write failure the two audited mutations `_transition_mission`
and `update_trust` fail with their in-memory domain change rolled back to
its pre-operation value. -/
theorem c3_failed_append_no_phantom_hash :
    (∀ (env : Env) (s : GenesisService) (m : Mission) (a : String)
        (s' : GenesisService) (msg : String),
      s.record_mission_event env m a = (s', some msg) →
      s'.epoch_service = s.epoch_service ∧
      s'.epoch_service.epoch_event_counts = s.epoch_service.epoch_event_counts) ∧
    (∀ (env : Env) (s : GenesisService) (aid : String) (delta : TrustDelta)
        (s' : GenesisService) (msg : String),
      s.record_trust_event env aid delta = (s', some msg) →
      s'.epoch_service = s.epoch_service ∧
      s'.epoch_service.epoch_event_counts = s.epoch_service.epoch_event_counts) ∧
    (∀ (env : Env) (smErrors : Mission → MissionState → List String)
        (s : GenesisService) (mid : String) (target : MissionState) (m : Mission)
        (ep : OpenEpoch) (log : EventLog) (file : List StoredRecord),
      s.epoch_service.current_epoch = some ep → ep.closed = false →
      s.event_log = some log → log.storage = some file →
      env.appendWriteFails = true →
      dictGet s.missions mid = some m → smErrors m target = [] →
      (s.transition_mission env smErrors mid target).2.success = false ∧
      (s.transition_mission env smErrors mid target).1.missions = s.missions ∧
      (s.transition_mission env smErrors mid target).1.epoch_service.epoch_event_counts =
        s.epoch_service.epoch_event_counts) ∧
    (∀ (env : Env) (applyUpdate : TrustRecord → TrustRecord × TrustDelta)
        (checkRecert : TrustRecord → List String) (recertFailMax : Nat)
        (onLeave : String → Bool) (s : GenesisService) (actor_id : String)
        (record : TrustRecord) (ep : OpenEpoch) (log : EventLog)
        (file : List StoredRecord),
      s.epoch_service.current_epoch = some ep → ep.closed = false →
      s.event_log = some log → log.storage = some file →
      env.appendWriteFails = true →
      dictGet s.trust_records (pyStrip actor_id) = some record →
      onLeave (pyStrip actor_id) = false →
      (∀ e0, dictGet s.roster (pyStrip actor_id) = some e0 →
        e0.trust_score = record.score) →
      (s.update_trust env applyUpdate checkRecert recertFailMax onLeave
        actor_id).2.success = false ∧
      (s.update_trust env applyUpdate checkRecert recertFailMax onLeave
        actor_id).1.trust_records = s.trust_records ∧
      (s.update_trust env applyUpdate checkRecert recertFailMax onLeave
        actor_id).1.roster = s.roster ∧
      (s.update_trust env applyUpdate checkRecert recertFailMax onLeave
        actor_id).1.epoch_service.epoch_event_counts =
        s.epoch_service.epoch_event_counts) := by
  refine ⟨?_, ?_, ?_, ?_⟩
  · intro env s m a s' msg heq
    have h := record_mission_event_error_epoch env s m a msg (by rw [heq])
    rw [heq] at h
    exact ⟨h, by rw [h]⟩
  · intro env s aid delta s' msg heq
    have h := record_trust_event_error_epoch env s aid delta msg (by rw [heq])
    rw [heq] at h
    exact ⟨h, by rw [h]⟩
  · intro env smErrors s mid target m ep log file hep hcl hl hs hw hm hv
    obtain ⟨h1, h2, h3⟩ :=
      transition_mission_append_fail env smErrors s mid target m ep log file
        hep hcl hl hs hw hm hv
    exact ⟨h1, h2, by rw [h3]⟩
  · intro env applyUpdate checkRecert recertFailMax onLeave s actor_id record
      ep log file hep hcl hl hs hw hget hleave hsync
    obtain ⟨h1, h2, h3, h4⟩ :=
      update_trust_append_fail env applyUpdate checkRecert recertFailMax onLeave
        s actor_id record ep log file hep hcl hl hs hw hget hleave hsync
    exact ⟨h1, h2, h3, by rw [h4]⟩

/-- Witness for C3 at a concrete input. -/
theorem c3_failed_append_no_phantom_hash_witness :
    (c3State.epoch_service.current_epoch = some c3Epoch ∧ c3Epoch.closed = false ∧
      c3State.event_log = some emptyFileLog ∧ emptyFileLog.storage = some [] ∧
      c3Env.appendWriteFails = true ∧
      dictGet c3State.missions "M-1" = some c3Mission) ∧
    ((c3State.transition_mission c3Env (fun _ _ => []) "M-1" .submitted).2.success = false ∧
      (c3State.transition_mission c3Env (fun _ _ => []) "M-1" .submitted).1.missions =
        c3State.missions ∧
      (c3State.transition_mission c3Env (fun _ _ => []) "M-1"
          .submitted).1.epoch_service.epoch_event_counts =
        c3State.epoch_service.epoch_event_counts) :=
  ⟨⟨rfl, rfl, rfl, rfl, rfl, rfl⟩,
   c3_failed_append_no_phantom_hash.2.2.1 c3Env (fun _ _ => []) c3State "M-1"
     .submitted c3Mission c3Epoch emptyFileLog [] rfl rfl rfl rfl rfl rfl rfl⟩

/-- The `_record_mission_event` keeps the persistence flag. -/
theorem record_mission_event_flag (env : Env) (s : GenesisService)
    (m : Mission) (a : String) :
    (s.record_mission_event env m a).1.persistence_degraded =
      s.persistence_degraded :=
  (record_mission_event_fields env s m a).2.2.2.2.2

/-- The `_record_trust_event` keeps the persistence flag. -/
theorem record_trust_event_flag (env : Env) (s : GenesisService)
    (aid : String) (delta : TrustDelta) :
    (s.record_trust_event env aid delta).1.persistence_degraded =
      s.persistence_degraded :=
  (record_trust_event_fields env s aid delta).2.2.2.2.2

/-- The `_record_listing_event` keeps the persistence flag. -/
theorem record_listing_event_flag (env : Env) (s : GenesisService)
    (l : MarketListing) (a : String) :
    (s.record_listing_event env l a).1.persistence_degraded =
      s.persistence_degraded := by
  unfold GenesisService.record_listing_event
  cases hc : s.epoch_service.current_epoch with
  | none => rfl
  | some ep =>
    by_cases hcl : ep.closed
    · simp [hcl]
    · cases hl : s.event_log with
      | none => simp [hcl, hl]
      | some log =>
        cases happ : EventLog.append env.appendWriteFails log
            (EventRecord.create env.sha (eventIdString (s.event_counter + 1))
              (if a = "created" then .listing_created else .listing_transition)
              l.creator_id
              [("listing_id", .vstr l.listing_id), ("action", .vstr a),
               ("event_hash", .vstr ("sha256:" ++
                  env.sha (l.listing_id ++ ":" ++ a ++ ":" ++ env.now_iso)))]
              env.now_strftime) with
        | mk log' err =>
          cases err with
          | none => simp [hcl, hl, GenesisService.next_event_id, happ]
          | some e => simp [hcl, hl, GenesisService.next_event_id, happ]

/-- The `_record_mission_event` on a memory-only log with an open epoch:
succeeds and inserts the hash into the mission bucket. -/
theorem record_mission_event_no_log (env : Env) (s : GenesisService)
    (m : Mission) (a : String) (ep : OpenEpoch)
    (hep : s.epoch_service.current_epoch = some ep) (hcl : ep.closed = false)
    (hl : s.event_log = none) :
    s.record_mission_event env m a =
      ({ s with epoch_service := s.epoch_service.record_mission_event (missionEventDataHash env m a) }, none) := by
  unfold GenesisService.record_mission_event
  rw [hep]
  simp [hcl, hl, missionEventDataHash]

/-- The `_transition_mission` whose audit commit succeeded but whose snapshot
write failed: the operation still succeeds, carries the degradation
warning, sets the sticky flag, and the mission state change is kept. -/
theorem transition_mission_store_degraded (env : Env)
    (smErrors : Mission → MissionState → List String)
    (s : GenesisService) (mid : String) (target : MissionState) (m : Mission)
    (ep : OpenEpoch)
    (hep : s.epoch_service.current_epoch = some ep) (hcl : ep.closed = false)
    (hl : s.event_log = none)
    (hst : s.has_state_store = true) (hsw : env.storeWriteFails = true)
    (hm : dictGet s.missions mid = some m) (hv : smErrors m target = []) :
    (s.transition_mission env smErrors mid target).2.success = true ∧
    (s.transition_mission env smErrors mid target).2.warning = some degradedMsg ∧
    (s.transition_mission env smErrors mid target).1.persistence_degraded = true ∧
    (s.transition_mission env smErrors mid target).1.missions =
      dictSet s.missions mid { m with state := target } := by
  unfold GenesisService.transition_mission
  simp only [hm, hv]
  rw [record_mission_event_no_log env
    ({ s with missions := dictSet s.missions mid ({ m with state := target }) })
    ({ m with state := target }) ("transition:" ++ target.value) ep hep hcl hl]
  simp [GenesisService.safe_persist_post_audit, GenesisService.persistRaises,
    hst, hsw, ServiceResult.okWith, degradedMsg]

/-- The `register_actor` never clears the degradation flag. -/
theorem register_actor_flag_mono (env : Env) (s : GenesisService)
    (actor_id : String) (kind : ActorKind) (region organization mf mt : String)
    (it : ℚ) (hf : s.persistence_degraded = true) :
    (s.register_actor env actor_id kind region organization mf mt
      it).1.persistence_degraded = true := by
  unfold GenesisService.register_actor GenesisService.safe_persist
  by_cases hb : pyStrip actor_id = ""
  · rw [if_pos hb]; exact hf
  · rw [if_neg hb]
    by_cases ht : ¬ (0 ≤ it ∧ it ≤ 1)
    · rw [if_pos ht]; exact hf
    · rw [if_neg ht]
      dsimp only
      split
      · rename_i s2 msg heq
        split at heq
        · cases heq; exact hf
        · exact Option.noConfusion (congrArg Prod.snd heq)
      · rename_i s2 heq
        split at heq
        · exact Option.noConfusion (congrArg Prod.snd heq)
        · cases heq; exact hf

/-- The `_transition_mission` never clears the degradation flag. -/
theorem transition_mission_flag_mono (env : Env)
    (smErrors : Mission → MissionState → List String) (s : GenesisService)
    (mid : String) (target : MissionState)
    (hf : s.persistence_degraded = true) :
    (s.transition_mission env smErrors mid target).1.persistence_degraded = true := by
  unfold GenesisService.transition_mission
  split
  · exact hf
  · split
    · exact hf
    · dsimp only
      split
      · rename_i s2 msg heq
        have h := congrArg (fun p => (p.1).persistence_degraded) heq
        simp only [record_mission_event_flag] at h
        exact h.symm.trans hf
      · rename_i s2 heq
        have h := congrArg (fun p => (p.1).persistence_degraded) heq
        simp only [record_mission_event_flag] at h
        unfold GenesisService.safe_persist_post_audit
        split
        · rfl
        · exact h.symm.trans hf

/-- The `_transition_listing` never clears the degradation flag. -/
theorem transition_listing_flag_mono (env : Env)
    (lsmErrors : MarketListing → ListingState → List String) (s : GenesisService)
    (lid : String) (target : ListingState)
    (hf : s.persistence_degraded = true) :
    (s.transition_listing env lsmErrors lid target).1.persistence_degraded = true := by
  unfold GenesisService.transition_listing
  split
  · exact hf
  · split
    · exact hf
    · dsimp only
      split
      · rename_i s2 msg heq
        have h := congrArg (fun p => (p.1).persistence_degraded) heq
        simp only [record_listing_event_flag] at h
        exact h.symm.trans hf
      · rename_i s2 heq
        have h := congrArg (fun p => (p.1).persistence_degraded) heq
        simp only [record_listing_event_flag] at h
        unfold GenesisService.safe_persist_post_audit
        split
        · rfl
        · exact h.symm.trans hf

/-- The `update_trust` never clears the degradation flag. -/
theorem update_trust_flag_mono (env : Env)
    (applyUpdate : TrustRecord → TrustRecord × TrustDelta)
    (checkRecert : TrustRecord → List String) (recertFailMax : Nat)
    (onLeave : String → Bool) (s : GenesisService) (actor_id : String)
    (hf : s.persistence_degraded = true) :
    (s.update_trust env applyUpdate checkRecert recertFailMax onLeave
      actor_id).1.persistence_degraded = true := by
  simp only [GenesisService.update_trust]
  split
  · exact hf
  · split
    · exact hf
    · split
      · rename_i s3 msg heq
        have h := congrArg (fun p => (p.1).persistence_degraded) heq
        simp only [record_trust_event_flag] at h
        repeat' split at h
        all_goals (repeat' split) <;> exact h.symm.trans hf
      · rename_i s3 heq
        have h := congrArg (fun p => (p.1).persistence_degraded) heq
        simp only [record_trust_event_flag] at h
        unfold GenesisService.safe_persist_post_audit
        repeat' split at h
        all_goals split <;> first | rfl | exact h.symm.trans hf

/-- C8 (amended): a snapshot failure after a committed audit event leaves
the operation successful with the degradation warning attached, rolls
nothing back (only the sticky flag changes), sets `persistence_degraded`,
which `status()` reports; the flag then remains true for the lifetime of
the service instance — a subsequent successful snapshot write does NOT
clear it (nothing ever writes `false` after construction), and no
modelled mutating operation clears it either; only a freshly constructed
service starts with it `false`. -/
theorem c8_persistence_degraded_sticky (env : Env) (s : GenesisService) :
    (s.persistRaises env = true →
      s.safe_persist_post_audit env =
        ({ s with persistence_degraded := true }, some degradedMsg)) ∧
    (s.persistRaises env = false → s.safe_persist_post_audit env = (s, none)) ∧
    ((s.safe_persist_post_audit env).1.persistence_degraded =
      (s.persistence_degraded || s.persistRaises env)) ∧
    (s.status.persistence_degraded = s.persistence_degraded) ∧
    (∀ ph el st, (GenesisService.init ph el st).persistence_degraded = false) ∧
    (∀ (smErrors : Mission → MissionState → List String) (mid : String)
        (target : MissionState) (m : Mission) (ep : OpenEpoch),
      s.epoch_service.current_epoch = some ep → ep.closed = false →
      s.event_log = none → s.has_state_store = true → env.storeWriteFails = true →
      dictGet s.missions mid = some m → smErrors m target = [] →
      (s.transition_mission env smErrors mid target).2.success = true ∧
      (s.transition_mission env smErrors mid target).2.warning = some degradedMsg ∧
      (s.transition_mission env smErrors mid target).1.persistence_degraded = true ∧
      (s.transition_mission env smErrors mid target).1.missions =
        dictSet s.missions mid { m with state := target }) ∧
    (s.persistence_degraded = true →
      (∀ actor_id kind region organization mf mt it,
        (s.register_actor env actor_id kind region organization mf mt
          it).1.persistence_degraded = true) ∧
      (∀ smErrors mid target,
        (s.transition_mission env smErrors mid target).1.persistence_degraded = true) ∧
      (∀ lsmErrors lid target,
        (s.transition_listing env lsmErrors lid target).1.persistence_degraded = true) ∧
      (∀ applyUpdate checkRecert recertFailMax onLeave actor_id,
        (s.update_trust env applyUpdate checkRecert recertFailMax onLeave
          actor_id).1.persistence_degraded = true)) := by
  refine ⟨?_, ?_, ?_, rfl, fun ph el st => rfl, ?_, ?_⟩
  · intro h
    simp [GenesisService.safe_persist_post_audit, h, degradedMsg]
  · intro h
    simp [GenesisService.safe_persist_post_audit, h]
  · cases hp : s.persistRaises env <;>
      simp [GenesisService.safe_persist_post_audit, hp]
  · intro smErrors mid target m ep hep hcl hl hst hsw hm hv
    exact transition_mission_store_degraded env smErrors s mid target m ep
      hep hcl hl hst hsw hm hv
  · intro hf
    exact ⟨fun actor_id kind region organization mf mt it =>
        register_actor_flag_mono env s actor_id kind region organization mf mt it hf,
      fun smErrors mid target =>
        transition_mission_flag_mono env smErrors s mid target hf,
      fun lsmErrors lid target =>
        transition_listing_flag_mono env lsmErrors s lid target hf,
      fun applyUpdate checkRecert recertFailMax onLeave actor_id =>
        update_trust_flag_mono env applyUpdate checkRecert recertFailMax onLeave
          s actor_id hf⟩

/-- C8 counterexample: a failed snapshot write sets the flag; the next
snapshot write succeeds (returns no warning), yet `status()` still
reports `persistence_degraded = true` — the claim's "false again after
the next successful snapshot write" is refuted at this concrete input. -/
theorem c8_flag_not_cleared_by_successful_write :
    ((c8State.safe_persist_post_audit c8EnvFail).1.safe_persist_post_audit
      c8EnvOk).2 = none ∧
    ¬ (((c8State.safe_persist_post_audit c8EnvFail).1.safe_persist_post_audit
      c8EnvOk).1.status.persistence_degraded = false) := by
  refine ⟨rfl, ?_⟩
  decide

/-- Witness for the amended C8 at concrete inputs. -/
theorem c8_persistence_degraded_sticky_witness :
    (c8WState.persistRaises c8EnvFail = true ∧
      c8WState.epoch_service.current_epoch = some c8Epoch ∧
      c8Epoch.closed = false ∧ c8WState.event_log = none ∧
      c8WState.has_state_store = true ∧ c8EnvFail.storeWriteFails = true ∧
      dictGet c8WState.missions "M-1" = some c8Mission) ∧
    (c8WState.safe_persist_post_audit c8EnvFail =
      ({ c8WState with persistence_degraded := true }, some degradedMsg)) ∧
    ((c8WState.transition_mission c8EnvFail (fun _ _ => []) "M-1"
        .submitted).2.success = true ∧
      (c8WState.transition_mission c8EnvFail (fun _ _ => []) "M-1"
        .submitted).2.warning = some degradedMsg ∧
      (c8WState.transition_mission c8EnvFail (fun _ _ => []) "M-1"
        .submitted).1.persistence_degraded = true) :=
  ⟨⟨rfl, rfl, rfl, rfl, rfl, rfl, rfl⟩,
   (c8_persistence_degraded_sticky c8EnvFail c8WState).1 rfl,
   (fun h => ⟨h.1, h.2.1, h.2.2.1⟩)
     ((c8_persistence_degraded_sticky c8EnvFail c8WState).2.2.2.2.2.1
       (fun _ _ => []) "M-1" .submitted c8Mission c8Epoch
       rfl rfl rfl rfl rfl rfl rfl)⟩

end Polaris
